import Mathlib

/-!
Verification development for the content reconciliation engine of the
slide-deck generator: a shallow embedding of
`scripts/advanced_placeholder_matcher.py` and
`scripts/content_verification.py`, followed by theorems about the
embedded definitions.

Modelling conventions:
* Python `str` is Lean `String`; the small helper functions below
  (`pyIn`, `pyLower`, `pyStrip`, `pyWords`, ...) mirror the exact
  CPython operations used by the source (`in`, `.lower()`, `.strip()`,
  `.split()`, `.split`, `.replace`, `.isdigit`).
* Python `float` is modelled as `Rat`; all the constants of the source
  (0.1, 0.3, 0.5, 0.8, 0.95, tolerances, thresholds) are exact decimal
  fractions, so rational arithmetic agrees with the double arithmetic
  of the source on the comparisons the claims are about.
* Object identity (CPython `id(shape)`) is modelled as the index of the
  shape in the slide's shape list; `SlideContext.usedShapes` is the set
  of such indices, exactly as the design note of the spec suggests
  (arena + index).
* A shape's mutable text container (`shape.text_frame`) is the ordered
  list of its paragraph texts; `text_frame.clear()` leaves a single
  empty paragraph, as python-pptx does, and `shape.text` joins the
  paragraph texts with a newline.
* Exceptions raised by the pptx layer are modelled by explicit
  oracles: `Option String` for file load/save (`some msg` means the
  operation raises with message `msg`), and, for the text-frame write
  of the repair path, `Option (Nat × String)`: `some (k, msg)` means
  the write raises `msg` after `text_frame.clear()` and `k` completed
  iterations of the line loop, so the container is left cleared and
  partially written, exactly as an exception inside the source's
  per-issue `try` would leave it.
  The human-readable `reasoning` string of a match and the numeric
  interpolation inside log strings are presentational and not modelled.
-/

/- The Batteries rational-number operations are `@[irreducible]`, which
blocks `decide`-style evaluation of the embedded arithmetic; restore
reducibility locally so concrete runs of the matcher and verifier can
be checked by the kernel. -/
attribute [local semireducible] Rat.add Rat.sub Rat.mul Rat.inv Rat.ofScientific

/-! ## Python string primitives -/

/-- `startsWithL n h`: the character list `h` starts with `n`. -/
def startsWithL : List Char → List Char → Bool
  | [], _ => true
  | _ :: _, [] => false
  | a :: as, b :: bs => a == b && startsWithL as bs

/-- `subL n h`: `n` occurs as a contiguous run inside `h`
(Python `n in h` for strings). -/
def subL (n : List Char) : List Char → Bool
  | [] => n.isEmpty
  | c :: cs => startsWithL n (c :: cs) || subL n cs

/-- Python `needle in haystack` on strings. -/
def pyIn (needle haystack : String) : Bool :=
  subL needle.toList haystack.toList

/-- Python `s.lower()` (ASCII-faithful). -/
def pyLower (s : String) : String :=
  ⟨s.toList.map Char.toLower⟩

/-- Python `s.strip()`: drop whitespace from both ends. -/
def pyStrip (s : String) : String :=
  ⟨((s.toList.dropWhile Char.isWhitespace).reverse.dropWhile Char.isWhitespace).reverse⟩

/-- Split a character list at every character satisfying `p`,
keeping empty chunks (the skeleton of Python `str.split(sep)`). -/
def splitChL (p : Char → Bool) : List Char → List (List Char)
  | [] => [[]]
  | c :: cs =>
    if p c then [] :: splitChL p cs
    else
      match splitChL p cs with
      | [] => [[c]]
      | w :: ws => (c :: w) :: ws

/-- Python `s.split()` (no argument): whitespace-separated words,
empty chunks dropped. -/
def pyWords (s : String) : List String :=
  ((splitChL Char.isWhitespace s.toList).map fun l => (⟨l⟩ : String)).filter (· ≠ "")

/-- Python `s.split('\n')`: newline-separated chunks, empties kept. -/
def pySplitLines (s : String) : List String :=
  (splitChL (· == '\n') s.toList).map fun l => (⟨l⟩ : String)

/-- Python `" ".join ws`. -/
def joinWords : List String → String
  | [] => ""
  | [w] => w
  | w :: ws => w ++ " " ++ joinWords ws

/-- Python `s.isdigit()` (true only on non-empty all-digit strings). -/
def pyIsDigit (s : String) : Bool :=
  !s.toList.isEmpty && s.toList.all Char.isDigit

/-- One fuel-indexed step of Python `str.replace` (all non-overlapping
occurrences, left to right); `pat` is non-empty at every call site. -/
def replaceFuel : Nat → List Char → List Char → List Char → List Char
  | 0, _, _, s => s
  | _ + 1, _, _, [] => []
  | f + 1, pat, rep, c :: cs =>
    if startsWithL pat (c :: cs) ∧ pat ≠ [] then
      rep ++ replaceFuel f pat rep ((c :: cs).drop pat.length)
    else
      c :: replaceFuel f pat rep cs

/-- Python `s.replace(pat, rep)`. -/
def pyReplace (s pat rep : String) : String :=
  ⟨replaceFuel s.toList.length pat.toList rep.toList s.toList⟩

/-- Decimal digits to a number (for the regex capture `(\d+)`). -/
def digitsToNat (ds : List Char) : Nat :=
  ds.foldl (fun n c => n * 10 + (c.toNat - 48)) 0

/-- Try the regex `placeholder\s+(\d+)` anchored at the start of `l`. -/
def placeholderNumAt (l : List Char) : Option Nat :=
  if startsWithL "placeholder".toList l then
    let rest := l.drop 11
    let ws := rest.takeWhile Char.isWhitespace
    if ws.isEmpty then none
    else
      let ds := (rest.drop ws.length).takeWhile Char.isDigit
      if ds.isEmpty then none else some (digitsToNat ds)
  else none

/-- Python `re.search(r'placeholder\s+(\d+)', s)`: leftmost match of the
pattern, returning the captured number. -/
def placeholderNumSearch : List Char → Option Nat
  | [] => none
  | c :: cs =>
    match placeholderNumAt (c :: cs) with
    | some n => some n
    | none => placeholderNumSearch cs

/-! ## Generic list helpers mirroring Python loops -/

/-- First `some` produced by `f` along the list (a `for` loop with an
early `return`). -/
def firstSome (f : α → Option β) : List α → Option β
  | [] => none
  | a :: as =>
    match f a with
    | some b => some b
    | none => firstSome f as

/-- Insert into a sorted list, before the first element it is `le` to
(helper of the stable sort). -/
def insortBy (le : α → α → Bool) (a : α) : List α → List α
  | [] => [a]
  | b :: bs => if le a b then a :: b :: bs else b :: insortBy le a bs

/-- Stable insertion sort: elements comparing equal keep their original
relative order, like CPython `sorted`. -/
def stableSort (le : α → α → Bool) : List α → List α
  | [] => []
  | a :: as => insortBy le a (stableSort le as)

/-- Replace the element at an index, in place (mutation of one shape of
a slide); out-of-range indices leave the list unchanged. -/
def listModify (f : α → α) : Nat → List α → List α
  | _, [] => []
  | 0, a :: as => f a :: as
  | n + 1, a :: as => a :: listModify f n as

/-- Python list indexing `l[i]` with negative-index wrap-around;
`none` models the `IndexError`. -/
def pyGetIdx (l : List α) (i : Int) : Option α :=
  if 0 ≤ i then l.get? i.toNat
  else if (-i).toNat ≤ l.length then l.get? (l.length - (-i).toNat)
  else none

/-- Python list assignment `l[i] = a` with negative-index wrap-around;
out-of-range indices leave the list unchanged (the matching read raises
first in the source, so this case is never reached there). -/
def pySetIdx (l : List α) (i : Int) (a : α) : List α :=
  if 0 ≤ i then l.set i.toNat a
  else l.set (l.length - (-i).toNat) a

/-- Python `abs` on a rational (kernel-reducible, unlike the lattice
`|.|`). -/
def ratAbs (x : Rat) : Rat := if x < 0 then -x else x

/-- Python `max` on rationals (kernel-reducible). -/
def ratMax (a b : Rat) : Rat := if a ≤ b then b else a

/-! ## Data model (`advanced_placeholder_matcher.py`, `content_verification.py`) -/

/-- A PowerPoint shape on a live slide (`pptx` `BaseShape` restricted to
the attributes the source reads or writes). `left`/`top` are the raw
numeric positions the source compares (EMU on the document side), and
`paragraphs` is the mutable text container: the ordered list of
paragraph texts of `shape.text_frame`. -/
structure PptShape where
  name : String
  hasTextFrame : Bool
  left : Rat
  top : Rat
  paragraphs : List String
deriving DecidableEq, Repr

/-- `shape.text` in python-pptx: the paragraph texts joined by newlines. -/
def PptShape.text (s : PptShape) : String :=
  String.intercalate "\n" s.paragraphs

/-- One intent-side shape record of the JSON (`shape_data` dict).
Fields carry the `.get` defaults the source applies uniformly
(`""` for strings, `0` for positions, `False` for `has_text_frame`). -/
structure ShapeData where
  name : String
  placeholder_type : String
  left_inches : Rat
  top_inches : Rat
  text : String
  has_text_frame : Bool
deriving DecidableEq, Repr

/-- One intent-side slide record (`slide_data` dict). `slide_index` and
`slide_layout_name` are optional because different call sites apply
different `.get` defaults (`0` or the enumeration position for the
index, `"Unknown"` for the layout), and the repair path builds a dict
holding only `"shapes"`. -/
structure SlideData where
  slide_index : Option Int
  slide_layout_name : Option String
  shapes : List ShapeData
deriving DecidableEq, Repr

/-- `MatchingStrategy` enum. -/
inductive MatchingStrategy where
  | exact_name
  | placeholder_number
  | position_based
  | layout_pattern
  | content_similarity
  | fallback_order
deriving DecidableEq, Repr

/-- The `.value` string of the enum member. -/
def MatchingStrategy.value : MatchingStrategy → String
  | .exact_name => "exact_name"
  | .placeholder_number => "placeholder_number"
  | .position_based => "position_based"
  | .layout_pattern => "layout_pattern"
  | .content_similarity => "content_similarity"
  | .fallback_order => "fallback_order"

/-- `PlaceholderMatch` dataclass. `ppt_shape` is the identity (index in
the slide's shape list) of the matched document shape; the
human-readable `reasoning` string is not modelled. -/
structure PlaceholderMatch where
  json_shape : ShapeData
  ppt_shape : Nat
  confidence : Rat
  strategy : MatchingStrategy
deriving DecidableEq, Repr

/-- `SlideContext` dataclass. `available_shapes` pairs each eligible
document shape with its identity; `used_shapes` is the set (as a list)
of identities already consumed in this slide's matching pass. -/
structure SlideContext where
  slide_index : Int
  layout_name : String
  total_content_placeholders : Nat
  content_placeholder_positions : List (Rat × Rat)
  available_shapes : List (Nat × PptShape)
  used_shapes : List Nat
deriving DecidableEq, Repr

/-- `ContentMismatch` dataclass. -/
structure ContentMismatch where
  slide_index : Int
  shape_name : String
  placeholder_type : String
  issue_type : String
  intended_content : String
  actual_content : String
  severity : String
  description : String
deriving DecidableEq, Repr

/-- `RepairResult` dataclass. -/
structure RepairResult where
  mismatch : ContentMismatch
  repair_attempted : Bool
  repair_successful : Bool
  repair_method : String
  new_content : String
  error_message : Option String
deriving DecidableEq, Repr

/-- `VerificationResult` dataclass. `successful_matches` is an `Int`
because the source computes it as a difference that can go negative,
and `success_rate` is the exact rational value of the float the source
computes. -/
structure VerificationResult where
  total_slides : Nat
  total_shapes_checked : Nat
  successful_matches : Int
  mismatches : List ContentMismatch
  success_rate : Rat
  overall_status : String
  repair_results : Option (List RepairResult)
  post_repair_mismatches : Option (List ContentMismatch)
  post_repair_success_rate : Option Rat
deriving DecidableEq, Repr

/-! ## `AdvancedPlaceholderMatcher` -/

/-- `self.position_tolerance = 500000` (EMU units). -/
def position_tolerance : Rat := 500000

/-- `_is_content_shape`: a document shape is eligible when it has a
text frame and is not an obvious non-content shape. -/
def is_content_shape (shape : PptShape) : Bool :=
  if !shape.hasTextFrame then false
  else
    let name_lower := pyLower shape.name
    let text := pyStrip shape.text
    !(pyIn "picture" name_lower ||
      pyIn "table" name_lower ||
      (pyIn "slide" name_lower && pyIn "number" name_lower) ||
      (pyIsDigit text && text.length ≤ 2))

/-- `_create_slide_context`: snapshot of a slide for one matching pass,
with a fresh empty consumed set. -/
def create_slide_context (slide : List PptShape) (slide_data : SlideData) : SlideContext :=
  { slide_index := slide_data.slide_index.getD 0
    layout_name := slide_data.slide_layout_name.getD "Unknown"
    total_content_placeholders :=
      (slide_data.shapes.filter fun s => s.placeholder_type = "OBJECT").length
    content_placeholder_positions :=
      (slide_data.shapes.filter fun s => s.placeholder_type = "OBJECT").map
        fun s => (s.left_inches, s.top_inches)
    available_shapes :=
      slide.enum.filter fun p => p.2.hasTextFrame && is_content_shape p.2
    used_shapes := [] }

/-- Priority key of `_filter_content_shapes`: TITLE first, then OBJECT,
then everything else. -/
def content_shape_priority (shape : ShapeData) : Nat :=
  if shape.placeholder_type = "TITLE" then 0
  else if shape.placeholder_type = "OBJECT" then 1
  else 2

/-- `_filter_content_shapes`: drop SLIDE_NUMBER placeholders and
stable-sort the rest by priority. -/
def filter_content_shapes (slide_data : SlideData) : List ShapeData :=
  stableSort (fun a b => content_shape_priority a ≤ content_shape_priority b)
    (slide_data.shapes.filter fun s => s.placeholder_type ≠ "SLIDE_NUMBER")

/-- `_try_exact_name_match` (strategy 1): first unconsumed shape with a
non-empty, case-insensitively equal name, at confidence 1.0. -/
def try_exact_name_match (shape_data : ShapeData) (context : SlideContext) :
    Option PlaceholderMatch :=
  if shape_data.name = "" then none
  else
    firstSome (fun p =>
      if p.1 ∉ context.used_shapes ∧ p.2.name ≠ "" ∧
          pyLower p.2.name = pyLower shape_data.name then
        some { json_shape := shape_data, ppt_shape := p.1, confidence := 1,
               strategy := .exact_name }
      else none) context.available_shapes

/-- `_try_placeholder_number_match` (strategy 2): equal trailing
placeholder numbers for OBJECT shapes, at confidence 0.95. -/
def try_placeholder_number_match (shape_data : ShapeData) (context : SlideContext) :
    Option PlaceholderMatch :=
  if shape_data.placeholder_type ≠ "OBJECT" ∨
      ¬ pyIn "placeholder" (pyLower shape_data.name) then none
  else
    match placeholderNumSearch (pyLower shape_data.name).toList with
    | none => none
    | some target =>
      firstSome (fun p =>
        if p.1 ∉ context.used_shapes ∧
            placeholderNumSearch (pyLower p.2.name).toList = some target then
          some { json_shape := shape_data, ppt_shape := p.1, confidence := 0.95,
                 strategy := .placeholder_number }
        else none) context.available_shapes

/-- Manhattan distance between a declared and an actual position, as
the source computes it (`abs(shape.left - left_pos) + abs(shape.top - top_pos)`). -/
def manhattan (shape_data : ShapeData) (shape : PptShape) : Rat :=
  ratAbs (shape.left - shape_data.left_inches) + ratAbs (shape.top - shape_data.top_inches)

/-- Role guard of `_try_position_match`: an OBJECT match must land on a
content-placeholder-named shape, a TITLE match on a title-named shape. -/
def position_role_ok (placeholder_type : String) (shape : PptShape) : Bool :=
  if placeholder_type = "OBJECT" then
    pyIn "content" (pyLower shape.name) && pyIn "placeholder" (pyLower shape.name)
  else if placeholder_type = "TITLE" then
    pyIn "title" (pyLower shape.name)
  else true

/-- Confidence formula of the position strategy:
`max(0.1, 1.0 - best_distance / position_tolerance)`. -/
def position_confidence (distance : Rat) : Rat :=
  ratMax 0.1 (1 - distance / position_tolerance)

/-- One iteration of the candidate loop of `_try_position_match`:
keep the accepted candidate of smallest distance (`acc` holds the
current best identity and distance; `better` is
`distance < best_distance`, vacuously true while no best exists). -/
def position_step (shape_data : ShapeData) (context : SlideContext)
    (acc : Option (Nat × Rat)) (p : Nat × PptShape) : Option (Nat × Rat) :=
  if p.1 ∉ context.used_shapes then
    let distance := manhattan shape_data p.2
    let better : Bool := match acc with
      | none => true
      | some b => decide (distance < b.2)
    if better ∧ distance < position_tolerance ∧
        position_role_ok shape_data.placeholder_type p.2 then
      some (p.1, distance)
    else acc
  else acc

/-- The candidate scan of `_try_position_match`: fold `position_step`
over the available shapes. -/
def position_scan (shape_data : ShapeData) (context : SlideContext) :
    List (Nat × PptShape) → Option (Nat × Rat) → Option (Nat × Rat)
  | [], acc => acc
  | p :: ps, acc =>
    position_scan shape_data context ps (position_step shape_data context acc p)

/-- `_try_position_match` (strategy 3): smallest-distance unconsumed
candidate passing the role guard, strictly within the tolerance. -/
def try_position_match (shape_data : ShapeData) (context : SlideContext) :
    Option PlaceholderMatch :=
  match position_scan shape_data context context.available_shapes none with
  | none => none
  | some b =>
    some { json_shape := shape_data, ppt_shape := b.1,
           confidence := position_confidence b.2, strategy := .position_based }

/-- Sort key of the layout strategy: position `(top, left)` ascending,
lexicographically, as CPython compares the tuples. -/
def top_left_le (a b : Nat × PptShape) : Bool :=
  a.2.top < b.2.top || (a.2.top == b.2.top && decide (a.2.left ≤ b.2.left))

/-- `_try_layout_pattern_match` (strategy 4): role-specific heuristics
independent of names and positions. -/
def try_layout_pattern_match (shape_data : ShapeData) (context : SlideContext) :
    Option PlaceholderMatch :=
  if shape_data.placeholder_type = "TITLE" then
    firstSome (fun p =>
      if p.1 ∉ context.used_shapes ∧ pyIn "title" (pyLower p.2.name) then
        some { json_shape := shape_data, ppt_shape := p.1, confidence := 0.8,
               strategy := .layout_pattern }
      else none) context.available_shapes
  else if shape_data.placeholder_type = "SUBTITLE" then
    firstSome (fun p =>
      if p.1 ∉ context.used_shapes ∧ pyIn "subtitle" (pyLower p.2.name) then
        some { json_shape := shape_data, ppt_shape := p.1, confidence := 0.8,
               strategy := .layout_pattern }
      else none) context.available_shapes
  else if shape_data.placeholder_type = "OBJECT" then
    let layout_name := pyLower context.layout_name
    let content_shapes := context.available_shapes.filter fun p =>
      p.1 ∉ context.used_shapes ∧
      pyIn "content" (pyLower p.2.name) ∧ pyIn "placeholder" (pyLower p.2.name)
    match stableSort top_left_le content_shapes with
    | [] => none
    | first :: rest =>
      let shape_name := pyLower shape_data.name
      if (pyIn "two content" layout_name ∨ pyIn "comparison" layout_name) ∧
          (pyIn "1" shape_name ∨ pyIn "left" shape_name) then
        some { json_shape := shape_data, ppt_shape := first.1, confidence := 0.85,
               strategy := .layout_pattern }
      else if (pyIn "two content" layout_name ∨ pyIn "comparison" layout_name) ∧
          ¬ (pyIn "1" shape_name ∨ pyIn "left" shape_name) ∧
          (pyIn "2" shape_name ∨ pyIn "right" shape_name) ∧ rest ≠ [] then
        some { json_shape := shape_data,
               ppt_shape := ((first :: rest).getLast (by simp)).1, confidence := 0.85,
               strategy := .layout_pattern }
      else
        some { json_shape := shape_data, ppt_shape := first.1, confidence := 0.7,
               strategy := .layout_pattern }
  else none

/-- `_calculate_text_similarity` (matcher): word-set Jaccard similarity
of the lowercased texts. -/
def calculate_text_similarity (text1 text2 : String) : Rat :=
  if text1 = "" ∨ text2 = "" then 0
  else
    let words1 := (pyWords (pyLower text1)).dedup
    let words2 := (pyWords (pyLower text2)).dedup
    if words1 = [] ∨ words2 = [] then 0
    else
      let intersection := words1.filter fun w => w ∈ words2
      let union := words1 ++ words2.filter fun w => w ∉ words1
      if union = [] then 0
      else (intersection.length : Rat) / (union.length : Rat)

/-- One iteration of the candidate loop of
`_try_content_similarity_match`: keep the unconsumed non-empty-text
candidate of highest similarity above the running best. -/
def similarity_step (shape_data : ShapeData) (context : SlideContext)
    (acc : Option (Nat × Rat)) (p : Nat × PptShape) : Option (Nat × Rat) :=
  if p.1 ∉ context.used_shapes ∧ pyStrip p.2.text ≠ "" then
    let similarity := calculate_text_similarity shape_data.text (pyStrip p.2.text)
    let best : Rat := match acc with
      | none => 0
      | some b => b.2
    if similarity > best ∧ similarity > 0.3 then some (p.1, similarity) else acc
  else acc

/-- The candidate scan of `_try_content_similarity_match`: fold
`similarity_step` over the available shapes. -/
def similarity_scan (shape_data : ShapeData) (context : SlideContext) :
    List (Nat × PptShape) → Option (Nat × Rat) → Option (Nat × Rat)
  | [], acc => acc
  | p :: ps, acc =>
    similarity_scan shape_data context ps (similarity_step shape_data context acc p)

/-- `_try_content_similarity_match` (strategy 5): highest word-Jaccard
similarity above 0.3 against the candidates' current text, at
confidence `similarity * 0.6`. -/
def try_content_similarity_match (shape_data : ShapeData) (context : SlideContext) :
    Option PlaceholderMatch :=
  if shape_data.text = "" then none
  else
    match similarity_scan shape_data context context.available_shapes none with
    | none => none
    | some b =>
      some { json_shape := shape_data, ppt_shape := b.1, confidence := b.2 * 0.6,
             strategy := .content_similarity }

/-- `_try_fallback_order_match` (strategy 6): last-resort, role-aware
order-based matching. -/
def try_fallback_order_match (shape_data : ShapeData) (context : SlideContext) :
    Option PlaceholderMatch :=
  if shape_data.placeholder_type = "OBJECT" then
    firstSome (fun p =>
      if p.1 ∉ context.used_shapes ∧
          pyIn "content" (pyLower p.2.name) ∧ pyIn "placeholder" (pyLower p.2.name) then
        some { json_shape := shape_data, ppt_shape := p.1, confidence := 0.5,
               strategy := .fallback_order }
      else none) context.available_shapes
  else if shape_data.placeholder_type = "TITLE" then
    firstSome (fun p =>
      if p.1 ∉ context.used_shapes ∧ pyIn "title" (pyLower p.2.name) then
        some { json_shape := shape_data, ppt_shape := p.1, confidence := 0.6,
               strategy := .fallback_order }
      else none) context.available_shapes
  else if shape_data.placeholder_type = "SUBTITLE" then
    firstSome (fun p =>
      if p.1 ∉ context.used_shapes ∧ pyIn "subtitle" (pyLower p.2.name) then
        some { json_shape := shape_data, ppt_shape := p.1, confidence := 0.6,
               strategy := .fallback_order }
      else none) context.available_shapes
  else
    match firstSome (fun p =>
      if p.1 ∉ context.used_shapes ∧
          pyIn (pyLower shape_data.placeholder_type) (pyLower p.2.name) then
        some { json_shape := shape_data, ppt_shape := p.1, confidence := 0.4,
               strategy := .fallback_order }
      else none) context.available_shapes with
    | some m => some m
    | none =>
      firstSome (fun p =>
        if p.1 ∉ context.used_shapes then
          some { json_shape := shape_data, ppt_shape := p.1, confidence := 0.3,
                 strategy := .fallback_order }
        else none) context.available_shapes

/-- The fixed strategy list of `_find_best_match`, in source order. -/
def matcher_strategies : List (ShapeData → SlideContext → Option PlaceholderMatch) :=
  [try_exact_name_match,
   try_placeholder_number_match,
   try_position_match,
   try_layout_pattern_match,
   try_content_similarity_match,
   try_fallback_order_match]

/-- The strategy loop of `_find_best_match`: keep the
highest-confidence result so far, breaking early at confidence ≥ 0.9. -/
def find_best_match_loop (shape_data : ShapeData) (context : SlideContext) :
    List (ShapeData → SlideContext → Option PlaceholderMatch) →
    Option PlaceholderMatch → Rat → Option PlaceholderMatch
  | [], best, _ => best
  | f :: fs, best, best_confidence =>
    match f shape_data context with
    | some m =>
      if m.confidence > best_confidence then
        if m.confidence ≥ 0.9 then some m
        else find_best_match_loop shape_data context fs (some m) m.confidence
      else find_best_match_loop shape_data context fs best best_confidence
    | none => find_best_match_loop shape_data context fs best best_confidence

/-- `_find_best_match`: run the six strategies in order on one content
shape. -/
def find_best_match (shape_data : ShapeData) (context : SlideContext) :
    Option PlaceholderMatch :=
  find_best_match_loop shape_data context matcher_strategies none 0

/-- The per-shape loop of `match_placeholders_for_slide`: match each
content shape in priority order, consuming the winning document shape. -/
def match_loop (context : SlideContext) : List ShapeData → List PlaceholderMatch
  | [] => []
  | shape_data :: rest =>
    match find_best_match shape_data context with
    | some m =>
      m :: match_loop { context with used_shapes := m.ppt_shape :: context.used_shapes } rest
    | none => match_loop context rest

/-- `match_placeholders_for_slide`: all matches of one slide, sorted by
confidence descending (stable, like `sorted(..., reverse=True)`). -/
def match_placeholders_for_slide (slide : List PptShape) (slide_data : SlideData) :
    List PlaceholderMatch :=
  let context := create_slide_context slide slide_data
  let content_shapes := filter_content_shapes slide_data
  stableSort (fun a b => b.confidence ≤ a.confidence) (match_loop context content_shapes)

/-! ## ContentApplier (`apply_advanced_content_matching`) -/

/-- The `"(missing)"`-marker cleanup of `apply_advanced_content_matching`:
`none` means the shape is skipped (`continue`), `some t` is the text to
apply. -/
def cleanup_text (new_text : String) : Option String :=
  if new_text = "" ∨ pyIn "(missing)" new_text then
    let cleaned :=
      if new_text ≠ "" then
        pyStrip (pyReplace (pyReplace new_text " (missing)" "") "(missing)" "")
      else new_text
    if cleaned = "" then none else some cleaned
  else some new_text

/-- One step of the multi-line write loop: `line = line.strip()`; blank
lines are skipped; the first line overwrites the first paragraph left
by `clear()`, later lines append a paragraph. -/
def apply_line_step (paragraphs : List String) (arg : Nat × String) : List String :=
  let line := pyStrip arg.2
  if line = "" then paragraphs
  else if arg.1 = 0 then
    match paragraphs with
    | [] => paragraphs ++ [line]
    | _ :: rest => line :: rest
  else paragraphs ++ [line]

/-- The text-container write of `apply_advanced_content_matching` (and,
identically, of `_attempt_single_repair`): `text_frame.clear()` leaves
one empty paragraph, then one paragraph per newline-delimited line,
blank lines skipped. -/
def apply_multiline_text (new_text : String) : List String :=
  (pySplitLines new_text).enum.foldl apply_line_step [""]

/-- The state of the text container when the write of
`_attempt_single_repair` raises: `text_frame.clear()` has already left
one empty paragraph, and the first `k` iterations of the line loop have
completed, so the container holds the cleared-plus-`k`-lines prefix of
the full write (`k` past the number of lines gives the full write). -/
def partial_multiline_text (new_text : String) (k : Nat) : List String :=
  ((pySplitLines new_text).enum.take k).foldl apply_line_step [""]

/-- Applying one match's text to a shape: the cleanup followed by the
container write; returns the updated shape and whether the shape
counted as updated. -/
def apply_content_to_shape (new_text : String) (shape : PptShape) : PptShape × Bool :=
  match cleanup_text new_text with
  | none => (shape, false)
  | some t => ({ shape with paragraphs := apply_multiline_text t }, true)

/-- `apply_advanced_content_matching`: match the slide, then apply each
match's intended text in match order; returns the mutated slide and
the number of shapes successfully updated. -/
def apply_advanced_content_matching (slide : List PptShape) (slide_data : SlideData) :
    List PptShape × Nat :=
  let found := match_placeholders_for_slide slide slide_data
  found.foldl
    (fun acc m =>
      match cleanup_text m.json_shape.text with
      | none => acc
      | some t =>
        (listModify (fun s => { s with paragraphs := apply_multiline_text t })
          m.ppt_shape acc.1,
         acc.2 + 1))
    (slide, 0)

/-! ## ContentVerifier (`content_verification.py`) -/

/-- `self.default_text_patterns`. -/
def default_text_patterns : List String :=
  ["click to edit", "click to add", "add your text here", "type your text here",
   "enter your content here", "placeholder text", "sample text", "lorem ipsum",
   "content placeholder", "add content", "your content here", "edit this text",
   "replace this text", "template text"]

/-- `_is_default_text`: known template-boilerplate patterns, or short
generic text. -/
def is_default_text (text : String) : Bool :=
  let text_lower := pyStrip (pyLower text)
  default_text_patterns.any (fun pattern => pyIn pattern text_lower) ||
  (text_lower.length < 10 &&
    ["click", "add", "edit", "text", "content"].any fun word => pyIn word text_lower)

/-- `_calculate_similarity` (verifier): word-set Jaccard similarity of
two already-normalized strings (no lowering here, unlike the matcher's
version). -/
def calculate_similarity (text1 text2 : String) : Rat :=
  if text1 = "" ∨ text2 = "" then 0
  else
    let words1 := (pyWords text1).dedup
    let words2 := (pyWords text2).dedup
    if words1 = [] ∨ words2 = [] then 0
    else
      let intersection := words1.filter fun w => w ∈ words2
      let union := words1 ++ words2.filter fun w => w ∉ words1
      if union.length = 0 then 0
      else (intersection.length : Rat) / (union.length : Rat)

/-- Text normalization of `_analyze_content_match`:
`" ".join(text.split()).lower()`. -/
def normalize_text (text : String) : String :=
  pyLower (joinWords (pyWords text))

/-- `_is_content_shape` (verifier): intent shapes of every role except
SLIDE_NUMBER that declare a text frame. -/
def verifier_is_content_shape (shape : ShapeData) : Bool :=
  shape.placeholder_type ≠ "SLIDE_NUMBER" && shape.has_text_frame

/-- `_analyze_content_match`: classify the relation between the
intended and the actual text of one shape. -/
def analyze_content_match (slide_index : Int)
    (shape_name placeholder_type intended_text actual_text : String) :
    Option ContentMismatch :=
  let intended_normalized := normalize_text intended_text
  let actual_normalized := normalize_text actual_text
  if actual_text = "" then
    some { slide_index, shape_name, placeholder_type,
           issue_type := "empty_placeholder",
           intended_content := intended_text, actual_content := actual_text,
           severity := "critical",
           description := "Placeholder is empty - no content was applied" }
  else if is_default_text actual_text then
    some { slide_index, shape_name, placeholder_type,
           issue_type := "default_text",
           intended_content := intended_text, actual_content := actual_text,
           severity := "critical",
           description := "Contains default template text" }
  else if intended_normalized = actual_normalized then none
  else if pyIn intended_normalized actual_normalized ∨
      pyIn actual_normalized intended_normalized then
    let similarity := calculate_similarity intended_normalized actual_normalized
    if similarity > 0.8 then none
    else
      some { slide_index, shape_name, placeholder_type,
             issue_type := "content_mismatch",
             intended_content := intended_text, actual_content := actual_text,
             severity := "warning",
             description := "Content partially matches" }
  else
    some { slide_index, shape_name, placeholder_type,
           issue_type := "content_mismatch",
           intended_content := intended_text, actual_content := actual_text,
           severity := "critical",
           description := "Content completely different from intended" }

/-- Build a Python dict as an association list with unique keys: a later
binding of an existing key overwrites the value in place, keeping the
key's original position (CPython dict insertion-order semantics). -/
def dictUpsert [BEq κ] (k : κ) (v : ν) : List (κ × ν) → List (κ × ν)
  | [] => [(k, v)]
  | (k', v') :: rest =>
    if k == k' then (k, v) :: rest else (k', v') :: dictUpsert k v rest

/-- Python `d.get(k)` / `d[k]` on such a dict. -/
def dictGet [BEq κ] (k : κ) (d : List (κ × ν)) : Option ν :=
  (d.find? fun p => p.1 == k).map (·.2)

/-- `{slide.get("slide_index", i): slide for i, slide in enumerate(content)}`. -/
def slide_dict (content : List SlideData) : List (Int × SlideData) :=
  content.enum.foldl (fun d p => dictUpsert (p.2.slide_index.getD p.1) p.2 d) []

/-- `{shape.get("name", ""): shape for shape in actual_slide.get("shapes", [])}`. -/
def shape_dict (shapes : List ShapeData) : List (String × ShapeData) :=
  shapes.foldl (fun d s => dictUpsert s.name s d) []

/-- The scoring loop of `_find_matching_actual_shape`: role match is a
−100 bonus, positional distance a ×10 penalty; the strictly best score
wins, first in dict order on ties. -/
def actual_shape_score (placeholder_type : String) (intended_shape : ShapeData)
    (actual_shape : ShapeData) : Rat :=
  (if actual_shape.placeholder_type = placeholder_type then (-100 : Rat) else 0) +
  ratAbs (intended_shape.left_inches - actual_shape.left_inches) * 10 +
  ratAbs (intended_shape.top_inches - actual_shape.top_inches) * 10

/-- Fold of the scoring loop: keep the strictly lowest score seen. -/
def best_scored_shape (placeholder_type : String) (intended_shape : ShapeData) :
    List ShapeData → Option (ShapeData × Rat) → Option (ShapeData × Rat)
  | [], acc => acc
  | s :: ss, acc =>
    let score := actual_shape_score placeholder_type intended_shape s
    let acc' := match acc with
      | none => some (s, score)
      | some b => if score < b.2 then some (s, score) else acc
    best_scored_shape placeholder_type intended_shape ss acc'

/-- `_find_matching_actual_shape`: exact-name dict lookup, else the
best-scored shape when its score stays under the 50 threshold. -/
def find_matching_actual_shape (shape_name placeholder_type : String)
    (actual_shapes : List (String × ShapeData)) (intended_shape : ShapeData) :
    Option ShapeData :=
  match dictGet shape_name actual_shapes with
  | some s => some s
  | none =>
    match best_scored_shape placeholder_type intended_shape
        (actual_shapes.map (·.2)) none with
    | none => none
    | some b => if b.2 < 50 then some b.1 else none

/-- One iteration of the shape loop of `_compare_slide_shapes`. -/
def compare_one_shape (slide_index : Int) (actual_shapes : List (String × ShapeData))
    (mismatches : List ContentMismatch) (intended_shape : ShapeData) :
    List ContentMismatch :=
  if ¬ verifier_is_content_shape intended_shape then mismatches
  else
    let shape_name := intended_shape.name
    let placeholder_type := intended_shape.placeholder_type
    let intended_text := pyStrip intended_shape.text
    if intended_text = "" ∨ intended_text = "(missing)" then mismatches
    else
      match find_matching_actual_shape shape_name placeholder_type
          actual_shapes intended_shape with
      | none =>
        mismatches ++
          [{ slide_index, shape_name, placeholder_type,
             issue_type := "missing_shape",
             intended_content := intended_text, actual_content := "",
             severity := "critical",
             description := "Shape not found in actual presentation" }]
      | some actual_shape =>
        let actual_text := pyStrip actual_shape.text
        match analyze_content_match slide_index shape_name placeholder_type
            intended_text actual_text with
        | some m => mismatches ++ [m]
        | none => mismatches

/-- `_compare_slide_shapes`: mismatches of one slide. -/
def compare_slide_shapes (slide_index : Int) (actual_slide intended_slide : SlideData) :
    List ContentMismatch :=
  intended_slide.shapes.foldl
    (compare_one_shape slide_index (shape_dict actual_slide.shapes)) []

/-- One iteration of the slide loop of `_compare_content`: a missing
actual slide yields one critical `missing_slide` mismatch per
intent-side content shape. -/
def compare_one_slide (actual_slides : List (Int × SlideData))
    (mismatches : List ContentMismatch) (p : Int × SlideData) :
    List ContentMismatch :=
  match dictGet p.1 actual_slides with
  | none =>
    mismatches ++
      (p.2.shapes.filter verifier_is_content_shape).map fun shape =>
        { slide_index := p.1, shape_name := shape.name,
          placeholder_type := shape.placeholder_type,
          issue_type := "missing_slide",
          intended_content := shape.text, actual_content := "",
          severity := "critical",
          description := "Entire slide is missing" }
  | some actual_slide =>
    mismatches ++ compare_slide_shapes p.1 actual_slide p.2

/-- `_compare_content`: mismatches of the whole document, slide by
slide. -/
def compare_content (actual_content intended_content : List SlideData) :
    List ContentMismatch :=
  (slide_dict intended_content).foldl
    (compare_one_slide (slide_dict actual_content)) []

/-- `_count_content_shapes`: content shapes with non-blank text. -/
def count_content_shapes (intended_content : List SlideData) : Nat :=
  (intended_content.map fun slide =>
    (slide.shapes.filter fun s =>
      verifier_is_content_shape s && pyStrip s.text ≠ "").length).sum

/-- `_determine_overall_status` (the `success_rate` argument is unused
in the source body too). -/
def determine_overall_status (mismatches : List ContentMismatch)
    (_success_rate : Rat) : String :=
  let critical_issues := (mismatches.filter fun m => m.severity = "critical").length
  let warning_issues := (mismatches.filter fun m => m.severity = "warning").length
  if critical_issues = 0 ∧ warning_issues = 0 then "pass"
  else if critical_issues = 0 ∧ warning_issues ≤ 2 then "warning"
  else "fail"

/-- `_create_failed_result`: the failed `VerificationResult`; note that
the `error_message` argument is dropped. -/
def create_failed_result (_error_message : String) : VerificationResult :=
  { total_slides := 0, total_shapes_checked := 0, successful_matches := 0,
    mismatches := [], success_rate := 0, overall_status := "fail",
    repair_results := none, post_repair_mismatches := none,
    post_repair_success_rate := none }

/-- The successful branch of `verify_presentation_content` (without
auto-fix): compare, count, and aggregate. -/
def build_verification_result (actual_content intended_content : List SlideData) :
    VerificationResult :=
  let mismatches := compare_content actual_content intended_content
  let content_shapes := count_content_shapes intended_content
  let successful_matches : Int := (content_shapes : Int) - mismatches.length
  let success_rate : Rat :=
    if content_shapes > 0 then
      (successful_matches : Rat) / (content_shapes : Rat) * 100
    else 0
  { total_slides := intended_content.length,
    total_shapes_checked := content_shapes,
    successful_matches := successful_matches,
    mismatches := mismatches,
    success_rate := success_rate,
    overall_status := determine_overall_status mismatches success_rate,
    repair_results := none, post_repair_mismatches := none,
    post_repair_success_rate := none }

/-- `verify_presentation_content` without auto-fix. `extract_result` is
the value of `_extract_actual_content` (`none` when extraction failed
or raised), `load_result` the value of `_load_intended_content`, and
`comparison_exception` models any other exception reaching the outer
`except` of the method. -/
def verify_presentation_content (extract_result load_result : Option (List SlideData))
    (comparison_exception : Option String) : VerificationResult :=
  match extract_result with
  | none => create_failed_result "Failed to extract content from presentation"
  | some actual_content =>
    match load_result with
    | none => create_failed_result "Failed to load intended content from JSON"
    | some intended_content =>
      match comparison_exception with
      | some e => create_failed_result ("Verification error: " ++ e)
      | none => build_verification_result actual_content intended_content

/-! ## RepairOrchestrator (`_fix_critical_issues` and friends) -/

/-- The name → intended-shape map of `_repair_slide_issues`: shapes
with a non-empty name and non-blank text (later duplicates overwrite). -/
def build_intended_content_map (shapes : List ShapeData) : List (String × ShapeData) :=
  shapes.foldl
    (fun m shape =>
      if shape.name ≠ "" ∧ shape.text ≠ "" ∧ pyStrip shape.text ≠ "" then
        dictUpsert shape.name shape m
      else m)
    []

/-- `_attempt_single_repair`: repair one issue by re-running the
matcher on a single-shape intent list against the slide's current
shapes. `write_failure` is the exception oracle of the text-frame
write: `some (k, msg)` means the write raises `msg` after `clear()`
and `k` completed line-loop iterations — caught by the per-issue
`except`, which records the failure, leaving the matched shape's
container cleared and partially written. -/
def attempt_single_repair (write_failure : ContentMismatch → Option (Nat × String))
    (slide : List PptShape) (issue : ContentMismatch)
    (intended_content_map : List (String × ShapeData)) :
    List PptShape × RepairResult :=
  match dictGet issue.shape_name intended_content_map with
  | none =>
    (slide,
     { mismatch := issue, repair_attempted := false, repair_successful := false,
       repair_method := "no_intended_content", new_content := "",
       error_message := some "No intended content found for shape" })
  | some intended_shape =>
    match match_placeholders_for_slide slide
        { slide_index := none, slide_layout_name := none,
          shapes := [intended_shape] } with
    | [] =>
      (slide,
       { mismatch := issue, repair_attempted := true, repair_successful := false,
         repair_method := "no_match_found", new_content := "",
         error_message := some "Could not find matching shape" })
    | best_match :: _ =>
      let new_text := pyStrip intended_shape.text
      if new_text = "" then
        (slide,
         { mismatch := issue, repair_attempted := true, repair_successful := false,
           repair_method := "empty_content", new_content := "",
           error_message := some "Intended content is empty" })
      else
        match write_failure issue with
        | some ke =>
          (listModify
             (fun s => { s with
               paragraphs := partial_multiline_text new_text ke.1 })
             best_match.ppt_shape slide,
           { mismatch := issue, repair_attempted := true, repair_successful := false,
             repair_method := "error", new_content := "",
             error_message := some ke.2 })
        | none =>
          (listModify (fun s => { s with paragraphs := apply_multiline_text new_text })
             best_match.ppt_shape slide,
           { mismatch := issue, repair_attempted := true, repair_successful := true,
             repair_method := best_match.strategy.value, new_content := new_text,
             error_message := none })

/-- The per-issue loop of `_repair_slide_issues`, threading the mutated
slide through the issues in order. -/
def repair_slide_loop (write_failure : ContentMismatch → Option (Nat × String))
    (intended_content_map : List (String × ShapeData)) :
    List PptShape → List ContentMismatch → List PptShape × List RepairResult
  | slide, [] => (slide, [])
  | slide, issue :: rest =>
    let r := attempt_single_repair write_failure slide issue intended_content_map
    let after := repair_slide_loop write_failure intended_content_map r.1 rest
    (after.1, r.2 :: after.2)

/-- `_repair_slide_issues`: build the intended-content map of the slide
and attempt each issue in order. -/
def repair_slide_issues (write_failure : ContentMismatch → Option (Nat × String))
    (slide : List PptShape) (slide_data : SlideData)
    (slide_issues : List ContentMismatch) : List PptShape × List RepairResult :=
  repair_slide_loop write_failure (build_intended_content_map slide_data.shapes)
    slide slide_issues

/-- The grouping of `_fix_critical_issues`: issues bucketed by slide
index, buckets in first-occurrence order, each bucket in issue order
(CPython dict of lists). -/
def group_issues_by_slide (critical_issues : List ContentMismatch) :
    List (Int × List ContentMismatch) :=
  critical_issues.foldl
    (fun groups issue =>
      if (groups.find? fun g => g.1 == issue.slide_index).isSome then
        groups.map fun g =>
          if g.1 == issue.slide_index then (g.1, g.2 ++ [issue]) else g
      else groups ++ [(issue.slide_index, [issue])])
    []

/-- The failed `RepairResult` the outer `except` of
`_fix_critical_issues` records for an issue. -/
def failed_repair_result (e : String) (issue : ContentMismatch) : RepairResult :=
  { mismatch := issue, repair_attempted := false, repair_successful := false,
    repair_method := "none", new_content := "", error_message := some e }

/-- The slide loop of `_fix_critical_issues`: process each issue group
whose index passes the bounds test (out-of-range groups are skipped
silently); the third component carries the message of an exception
raised by an invalid negative Python index, which aborts the loop. -/
def fix_issues_loop (write_failure : ContentMismatch → Option (Nat × String))
    (intended_content : List SlideData) :
    List (Int × List ContentMismatch) → List (List PptShape) →
    List (List PptShape) × List RepairResult × Option String
  | [], prs => (prs, [], none)
  | (slide_idx, slide_issues) :: rest, prs =>
    if slide_idx < (prs.length : Int) ∧ slide_idx < (intended_content.length : Int) then
      match pyGetIdx prs slide_idx with
      | none => (prs, [], some "list index out of range")
      | some slide =>
        match pyGetIdx intended_content slide_idx with
        | none => (prs, [], some "list index out of range")
        | some slide_data =>
          let repaired := repair_slide_issues write_failure slide slide_data slide_issues
          let prs' := pySetIdx prs slide_idx repaired.1
          let after := fix_issues_loop write_failure intended_content rest prs'
          (after.1, repaired.2 ++ after.2.1, after.2.2)
    else fix_issues_loop write_failure intended_content rest prs

/-- `_fix_critical_issues`. `load_failure` and `save_failure` are the
exception oracles of `Presentation(path)` and `prs.save(path)`; any
such exception reaches the outer `except`, which appends a failed
`RepairResult` for every critical issue (on top of the per-slide
results already accumulated). -/
def fix_critical_issues (load_failure save_failure : Option String)
    (write_failure : ContentMismatch → Option (Nat × String))
    (prs : List (List PptShape)) (intended_content : List SlideData)
    (critical_issues : List ContentMismatch) :
    List (List PptShape) × List RepairResult :=
  match load_failure with
  | some e => (prs, critical_issues.map (failed_repair_result e))
  | none =>
    let looped := fix_issues_loop write_failure intended_content
      (group_issues_by_slide critical_issues) prs
    match looped.2.2 with
    | some e => (looped.1, looped.2.1 ++ critical_issues.map (failed_repair_result e))
    | none =>
      match save_failure with
      | some e => (looped.1, looped.2.1 ++ critical_issues.map (failed_repair_result e))
      | none => (looped.1, looped.2.1)

/-! ## Basic lemmas about the loop helpers -/

theorem firstSome_eq_some {f : α → Option β} {l : List α} {b : β}
    (h : firstSome f l = some b) : ∃ a ∈ l, f a = some b := by
  induction l with
  | nil => simp [firstSome] at h
  | cons a as ih =>
    rw [firstSome] at h
    cases hfa : f a with
    | some b' =>
      rw [hfa] at h
      exact ⟨a, List.mem_cons_self a as, by simpa using hfa.trans h⟩
    | none =>
      rw [hfa] at h
      obtain ⟨a', ha', hfa'⟩ := ih h
      exact ⟨a', List.mem_cons_of_mem a ha', hfa'⟩

theorem firstSome_eq_none {f : α → Option β} {l : List α}
    (h : ∀ a ∈ l, f a = none) : firstSome f l = none := by
  induction l with
  | nil => rfl
  | cons a as ih =>
    rw [firstSome, h a (List.mem_cons_self a as)]
    exact ih fun a' ha' => h a' (List.mem_cons_of_mem a ha')

theorem firstSome_isSome {f : α → Option β} {l : List α}
    (h : ∃ a ∈ l, (f a).isSome) : (firstSome f l).isSome := by
  induction l with
  | nil => simp at h
  | cons a as ih =>
    rw [firstSome]
    cases hfa : f a with
    | some b => rfl
    | none =>
      apply ih
      obtain ⟨a', ha', hsome⟩ := h
      rcases List.mem_cons.1 ha' with rfl | ha'
      · rw [hfa] at hsome; simp at hsome
      · exact ⟨a', ha', hsome⟩

theorem mem_insortBy {le : α → α → Bool} {a x : α} {l : List α} :
    x ∈ insortBy le a l ↔ x = a ∨ x ∈ l := by
  induction l with
  | nil => simp [insortBy]
  | cons b bs ih =>
    rw [insortBy]
    by_cases hle : le a b = true
    · rw [if_pos hle]
      simp only [List.mem_cons]
    · rw [if_neg hle]
      simp only [List.mem_cons, ih]
      tauto

theorem mem_stableSort {le : α → α → Bool} {x : α} {l : List α} :
    x ∈ stableSort le l ↔ x ∈ l := by
  induction l with
  | nil => simp [stableSort]
  | cons a as ih =>
    rw [stableSort, mem_insortBy, ih]
    simp

theorem pairwise_insortBy {R : α → α → Prop} {le : α → α → Bool} {a : α} {l : List α}
    (ha : ∀ b ∈ l, R a b ∧ R b a) (hl : l.Pairwise R) :
    (insortBy le a l).Pairwise R := by
  induction l with
  | nil => simp [insortBy]
  | cons b bs ih =>
    rw [insortBy]
    rcases List.pairwise_cons.1 hl with ⟨hb, hbs⟩
    by_cases hle : le a b
    · simp only [hle, if_true]
      refine List.pairwise_cons.2 ⟨?_, hl⟩
      intro x hx
      rcases List.mem_cons.1 hx with rfl | hx
      · exact (ha x (List.mem_cons_self x bs)).1
      · exact (ha x (List.mem_cons_of_mem b hx)).1
    · simp only [hle, if_false]
      refine List.pairwise_cons.2 ⟨?_, ?_⟩
      · intro x hx
        rcases mem_insortBy.1 hx with rfl | hx
        · exact (ha b (List.mem_cons_self b bs)).2
        · exact hb x hx
      · exact ih (fun c hc => ha c (List.mem_cons_of_mem b hc)) hbs

theorem pairwise_stableSort {R : α → α → Prop} {le : α → α → Bool} {l : List α}
    (hsym : ∀ x y, R x y → R y x) (hl : l.Pairwise R) :
    (stableSort le l).Pairwise R := by
  induction l with
  | nil => simp [stableSort]
  | cons a as ih =>
    rw [stableSort]
    rcases List.pairwise_cons.1 hl with ⟨hhead, htail⟩
    refine pairwise_insortBy ?_ (ih htail)
    intro b hb
    have hb' := mem_stableSort.1 hb
    exact ⟨hhead b hb', hsym a b (hhead b hb')⟩

/-! ## The consumed-set discipline of the six strategies -/

theorem try_exact_name_spec {d : ShapeData} {ctx : SlideContext} {m : PlaceholderMatch}
    (h : try_exact_name_match d ctx = some m) :
    m.ppt_shape ∉ ctx.used_shapes ∧ m.confidence = 1 ∧
      m.strategy = .exact_name ∧ m.json_shape = d := by
  rw [try_exact_name_match] at h
  split at h
  · exact absurd h (by simp)
  · obtain ⟨p, hp, heq⟩ := firstSome_eq_some h
    split at heq
    · rename_i hcond
      cases heq
      exact ⟨hcond.1, rfl, rfl, rfl⟩
    · exact absurd heq (by simp)

theorem try_placeholder_number_fresh {d : ShapeData} {ctx : SlideContext}
    {m : PlaceholderMatch} (h : try_placeholder_number_match d ctx = some m) :
    m.ppt_shape ∉ ctx.used_shapes := by
  rw [try_placeholder_number_match] at h
  split at h
  · exact absurd h (by simp)
  · split at h
    · exact absurd h (by simp)
    · obtain ⟨p, hp, heq⟩ := firstSome_eq_some h
      split at heq
      · rename_i hcond
        cases heq
        exact hcond.1
      · exact absurd heq (by simp)

theorem position_step_fresh {d : ShapeData} {ctx : SlideContext}
    {acc : Option (Nat × Rat)} {p : Nat × PptShape}
    (hacc : ∀ b0, acc = some b0 → b0.1 ∉ ctx.used_shapes) :
    ∀ b0, position_step d ctx acc p = some b0 → b0.1 ∉ ctx.used_shapes := by
  intro b0 hb0
  unfold position_step at hb0
  cases acc with
  | none =>
    split at hb0
    · rename_i hunused
      dsimp only at hb0
      split at hb0
      · cases hb0
        exact hunused
      · exact absurd hb0 (by simp)
    · exact absurd hb0 (by simp)
  | some b =>
    split at hb0
    · rename_i hunused
      dsimp only at hb0
      split at hb0
      · cases hb0
        exact hunused
      · exact hacc b0 hb0
    · exact hacc b0 hb0

theorem position_scan_fresh {d : ShapeData} {ctx : SlideContext} {b : Nat × Rat} :
    ∀ (l : List (Nat × PptShape)) (acc : Option (Nat × Rat)),
      position_scan d ctx l acc = some b →
      (∀ b0, acc = some b0 → b0.1 ∉ ctx.used_shapes) → b.1 ∉ ctx.used_shapes
  | [], acc, h, hacc => hacc b h
  | p :: ps, acc, h, hacc => by
    rw [position_scan] at h
    exact position_scan_fresh ps _ h (position_step_fresh hacc)

theorem try_position_fresh {d : ShapeData} {ctx : SlideContext} {m : PlaceholderMatch}
    (h : try_position_match d ctx = some m) : m.ppt_shape ∉ ctx.used_shapes := by
  rw [try_position_match] at h
  split at h
  · exact absurd h (by simp)
  · rename_i b hscan
    cases h
    exact position_scan_fresh ctx.available_shapes none hscan (by simp)

theorem mem_stableSort_filter {le : α → α → Bool} {P : α → Bool} {l : List α} {x : α}
    (h : x ∈ stableSort le (l.filter P)) : P x = true :=
  List.of_mem_filter (mem_stableSort.1 h)

theorem try_layout_pattern_fresh {d : ShapeData} {ctx : SlideContext}
    {m : PlaceholderMatch} (h : try_layout_pattern_match d ctx = some m) :
    m.ppt_shape ∉ ctx.used_shapes := by
  rw [try_layout_pattern_match] at h
  split at h
  · obtain ⟨p, hp, heq⟩ := firstSome_eq_some h
    split at heq
    · rename_i hcond
      cases heq
      exact hcond.1
    · exact absurd heq (by simp)
  · split at h
    · obtain ⟨p, hp, heq⟩ := firstSome_eq_some h
      split at heq
      · rename_i hcond
        cases heq
        exact hcond.1
      · exact absurd heq (by simp)
    · split at h
      · -- OBJECT branch: the match is drawn from the sorted filtered list
        dsimp only at h
        split at h
        · exact absurd h (by simp)
        · rename_i first rest hsorted
          have hfirst : first.1 ∉ ctx.used_shapes := by
            have hmem := List.mem_cons_self first rest
            rw [← hsorted] at hmem
            have := mem_stableSort_filter hmem
            simp only [decide_eq_true_eq] at this
            exact this.1
          have hlast : ∀ hne, ((first :: rest).getLast hne).1 ∉ ctx.used_shapes := by
            intro hne
            have hmem : (first :: rest).getLast hne ∈ first :: rest :=
              List.getLast_mem hne
            generalize (first :: rest).getLast hne = y at hmem ⊢
            rw [← hsorted] at hmem
            have := mem_stableSort_filter hmem
            simp only [decide_eq_true_eq] at this
            exact this.1
          split at h
          · cases h; exact hfirst
          · split at h
            · cases h; exact hlast _
            · cases h; exact hfirst
      · exact absurd h (by simp)

theorem similarity_step_fresh {d : ShapeData} {ctx : SlideContext}
    {acc : Option (Nat × Rat)} {p : Nat × PptShape}
    (hacc : ∀ b0, acc = some b0 → b0.1 ∉ ctx.used_shapes) :
    ∀ b0, similarity_step d ctx acc p = some b0 → b0.1 ∉ ctx.used_shapes := by
  intro b0 hb0
  unfold similarity_step at hb0
  cases acc with
  | none =>
    split at hb0
    · rename_i hcond
      dsimp only at hb0
      split at hb0
      · cases hb0
        exact hcond.1
      · exact absurd hb0 (by simp)
    · exact absurd hb0 (by simp)
  | some b =>
    split at hb0
    · rename_i hcond
      dsimp only at hb0
      split at hb0
      · cases hb0
        exact hcond.1
      · exact hacc b0 hb0
    · exact hacc b0 hb0

theorem similarity_scan_fresh {d : ShapeData} {ctx : SlideContext} {b : Nat × Rat} :
    ∀ (l : List (Nat × PptShape)) (acc : Option (Nat × Rat)),
      similarity_scan d ctx l acc = some b →
      (∀ b0, acc = some b0 → b0.1 ∉ ctx.used_shapes) → b.1 ∉ ctx.used_shapes
  | [], acc, h, hacc => hacc b h
  | p :: ps, acc, h, hacc => by
    rw [similarity_scan] at h
    exact similarity_scan_fresh ps _ h (similarity_step_fresh hacc)

theorem try_content_similarity_fresh {d : ShapeData} {ctx : SlideContext}
    {m : PlaceholderMatch} (h : try_content_similarity_match d ctx = some m) :
    m.ppt_shape ∉ ctx.used_shapes := by
  rw [try_content_similarity_match] at h
  split at h
  · exact absurd h (by simp)
  · split at h
    · exact absurd h (by simp)
    · rename_i b hscan
      cases h
      exact similarity_scan_fresh ctx.available_shapes none hscan (by simp)

theorem try_fallback_order_fresh {d : ShapeData} {ctx : SlideContext}
    {m : PlaceholderMatch} (h : try_fallback_order_match d ctx = some m) :
    m.ppt_shape ∉ ctx.used_shapes := by
  rw [try_fallback_order_match] at h
  split at h
  · obtain ⟨p, hp, heq⟩ := firstSome_eq_some h
    split at heq
    · rename_i hcond; cases heq; exact hcond.1
    · exact absurd heq (by simp)
  · split at h
    · obtain ⟨p, hp, heq⟩ := firstSome_eq_some h
      split at heq
      · rename_i hcond; cases heq; exact hcond.1
      · exact absurd heq (by simp)
    · split at h
      · obtain ⟨p, hp, heq⟩ := firstSome_eq_some h
        split at heq
        · rename_i hcond; cases heq; exact hcond.1
        · exact absurd heq (by simp)
      · split at h
        · rename_i m' hfs
          cases h
          obtain ⟨p, hp, heq⟩ := firstSome_eq_some hfs
          split at heq
          · rename_i hcond; cases heq; exact hcond.1
          · exact absurd heq (by simp)
        · obtain ⟨p, hp, heq⟩ := firstSome_eq_some h
          split at heq
          · rename_i hcond; cases heq; exact hcond
          · exact absurd heq (by simp)

theorem find_best_match_loop_prop {P : PlaceholderMatch → Prop} {d : ShapeData}
    {ctx : SlideContext} {m : PlaceholderMatch} :
    ∀ (fs : List (ShapeData → SlideContext → Option PlaceholderMatch))
      (best : Option PlaceholderMatch) (bc : Rat),
      (∀ f ∈ fs, ∀ m', f d ctx = some m' → P m') →
      (∀ m', best = some m' → P m') →
      find_best_match_loop d ctx fs best bc = some m → P m
  | [], best, bc, _, hbest, h => hbest m h
  | f :: fs, best, bc, hfs, hbest, h => by
    rw [find_best_match_loop] at h
    have hf := hfs f (List.mem_cons_self f fs)
    have hfs' : ∀ g ∈ fs, ∀ m', g d ctx = some m' → P m' :=
      fun g hg => hfs g (List.mem_cons_of_mem f hg)
    split at h
    · rename_i m' hm'
      split at h
      · split at h
        · cases h
          exact hf _ hm'
        · exact find_best_match_loop_prop fs (some m') m'.confidence hfs'
            (fun x hx => by cases hx; exact hf m' hm') h
      · exact find_best_match_loop_prop fs best bc hfs' hbest h
    · exact find_best_match_loop_prop fs best bc hfs' hbest h

theorem find_best_match_fresh {d : ShapeData} {ctx : SlideContext} {m : PlaceholderMatch}
    (h : find_best_match d ctx = some m) : m.ppt_shape ∉ ctx.used_shapes := by
  rw [find_best_match] at h
  refine @find_best_match_loop_prop (fun m' => m'.ppt_shape ∉ ctx.used_shapes) d ctx m
    matcher_strategies none 0 ?_ (fun x hx => absurd hx (by simp)) h
  intro f hf m'
  simp only [matcher_strategies, List.mem_cons, List.not_mem_nil, or_false] at hf
  rcases hf with rfl | rfl | rfl | rfl | rfl | rfl
  · exact fun h' => (try_exact_name_spec h').1
  · exact try_placeholder_number_fresh
  · exact try_position_fresh
  · exact try_layout_pattern_fresh
  · exact try_content_similarity_fresh
  · exact try_fallback_order_fresh

theorem match_loop_fresh {m : PlaceholderMatch} :
    ∀ (ds : List ShapeData) (ctx : SlideContext),
      m ∈ match_loop ctx ds → m.ppt_shape ∉ ctx.used_shapes
  | [], ctx, h => by simp [match_loop] at h
  | d :: ds, ctx, h => by
    rw [match_loop] at h
    split at h
    · rename_i m0 hm0
      rcases List.mem_cons.1 h with rfl | h
      · exact find_best_match_fresh hm0
      · have := match_loop_fresh ds _ h
        simp only [List.mem_cons] at this
        exact fun hmem => this (Or.inr hmem)
    · exact match_loop_fresh ds ctx h

theorem match_loop_pairwise :
    ∀ (ds : List ShapeData) (ctx : SlideContext),
      (match_loop ctx ds).Pairwise fun a b => a.ppt_shape ≠ b.ppt_shape
  | [], ctx => by simp [match_loop]
  | d :: ds, ctx => by
    rw [match_loop]
    split
    · rename_i m0 hm0
      refine List.pairwise_cons.2 ⟨?_, match_loop_pairwise ds _⟩
      intro m hm
      have := match_loop_fresh ds _ hm
      simp only [List.mem_cons] at this
      exact fun hcontra => this (Or.inl hcontra.symm)
    · exact match_loop_pairwise ds ctx

/-- C1. Within one slide's matching pass, no document shape is the
target of more than one matched intent shape: the list returned by
`match_placeholders_for_slide` pairs pairwise-distinct document-shape
identities, because every strategy excludes the consumed set and every
winning shape is added to it. -/
theorem C1_consumed_set_invariant (slide : List PptShape) (slide_data : SlideData) :
    (match_placeholders_for_slide slide slide_data).Pairwise
      fun a b => a.ppt_shape ≠ b.ppt_shape := by
  rw [match_placeholders_for_slide]
  exact pairwise_stableSort (fun x y h => h.symm)
    (match_loop_pairwise (filter_content_shapes slide_data)
      (create_slide_context slide slide_data))

/-! ## C2: exact-name precedence -/

/-- C2 counterexample. The claim quantifies over every content shape
whose declared name case-insensitively equals the name of an
unconsumed eligible document shape; with declared name `""` and a
document shape also named `""` the two names are (case-insensitively)
equal and the shape is eligible and unconsumed, yet
`_find_best_match` does not select an exact-name match at confidence
1.0: `_try_exact_name_match` rejects empty names, and the search falls
through to the 0.3 fallback. -/
theorem C2_counterexample :
    (0, ({ name := "", hasTextFrame := true, left := 1000000000, top := 0,
           paragraphs := [] } : PptShape)) ∈
      (create_slide_context
        [{ name := "", hasTextFrame := true, left := 1000000000, top := 0,
           paragraphs := [] }]
        { slide_index := some 0, slide_layout_name := some "Title Slide",
          shapes := [{ name := "", placeholder_type := "BODY", left_inches := 0,
                       top_inches := 0, text := "", has_text_frame := true }] }).available_shapes ∧
    (create_slide_context
        [{ name := "", hasTextFrame := true, left := 1000000000, top := 0,
           paragraphs := [] }]
        { slide_index := some 0, slide_layout_name := some "Title Slide",
          shapes := [{ name := "", placeholder_type := "BODY", left_inches := 0,
                       top_inches := 0, text := "", has_text_frame := true }] }).used_shapes = [] ∧
    pyLower "" = pyLower "" ∧
    (find_best_match
        { name := "", placeholder_type := "BODY", left_inches := 0,
          top_inches := 0, text := "", has_text_frame := true }
        (create_slide_context
          [{ name := "", hasTextFrame := true, left := 1000000000, top := 0,
             paragraphs := [] }]
          { slide_index := some 0, slide_layout_name := some "Title Slide",
            shapes := [{ name := "", placeholder_type := "BODY", left_inches := 0,
                         top_inches := 0, text := "", has_text_frame := true }] })).map
      (fun m => (m.confidence, m.strategy)) = some (0.3, .fallback_order) := by
  decide

/-- C2 (amended): for every content shape whose declared name is
non-empty and case-insensitively equal to the (necessarily non-empty)
name of some not-yet-consumed eligible document shape,
`_find_best_match` selects the exact-name strategy's match, with
confidence exactly 1.0, ahead of every lower-confidence strategy
(the ≥ 0.9 early exit fires on it immediately). -/
theorem C2_exact_name_precedence (shape_data : ShapeData) (context : SlideContext)
    (hname : shape_data.name ≠ "")
    (hexists : ∃ p ∈ context.available_shapes,
      p.1 ∉ context.used_shapes ∧ p.2.name ≠ "" ∧
      pyLower p.2.name = pyLower shape_data.name) :
    ∃ m, find_best_match shape_data context = some m ∧
      m.confidence = 1 ∧ m.strategy = .exact_name := by
  have hsome : (try_exact_name_match shape_data context).isSome := by
    rw [try_exact_name_match, if_neg hname]
    apply firstSome_isSome
    obtain ⟨p, hp, h1, h2, h3⟩ := hexists
    refine ⟨p, hp, ?_⟩
    rw [if_pos ⟨h1, h2, h3⟩]
    rfl
  obtain ⟨m, hm⟩ := Option.isSome_iff_exists.1 hsome
  have hspec := try_exact_name_spec hm
  refine ⟨m, ?_, hspec.2.1, hspec.2.2.1⟩
  rw [find_best_match, matcher_strategies, find_best_match_loop, hm]
  have h1 : m.confidence > (0 : Rat) := by rw [hspec.2.1]; norm_num
  have h2 : m.confidence ≥ (0.9 : Rat) := by rw [hspec.2.1]; norm_num
  dsimp only
  rw [if_pos h1, if_pos h2]

/-- Witness for C2: a concrete slide where the exact-name match is
selected at confidence 1.0. -/
theorem C2_exact_name_precedence_witness :
    ∃ m, find_best_match
        { name := "Title 1", placeholder_type := "TITLE", left_inches := 0,
          top_inches := 0, text := "Hi", has_text_frame := true }
        (create_slide_context
          [{ name := "title 1", hasTextFrame := true, left := 0, top := 0,
             paragraphs := [] }]
          { slide_index := some 0, slide_layout_name := some "L", shapes := [] }) =
      some m ∧ m.confidence = 1 ∧ m.strategy = .exact_name :=
  C2_exact_name_precedence _ _ (by decide) (by decide)

/-! ## C3: position-strategy characterization -/

theorem position_step_cases (d : ShapeData) (ctx : SlideContext)
    (acc : Option (Nat × Rat)) (p : Nat × PptShape) :
    (position_step d ctx acc p = acc ∧
      (p.1 ∉ ctx.used_shapes → manhattan d p.2 < position_tolerance →
        position_role_ok d.placeholder_type p.2 = true →
        ∃ b0, acc = some b0 ∧ b0.2 ≤ manhattan d p.2)) ∨
    (position_step d ctx acc p = some (p.1, manhattan d p.2) ∧
      p.1 ∉ ctx.used_shapes ∧ manhattan d p.2 < position_tolerance ∧
      position_role_ok d.placeholder_type p.2 = true ∧
      (∀ b0, acc = some b0 → manhattan d p.2 < b0.2)) := by
  unfold position_step
  by_cases hu : p.1 ∉ ctx.used_shapes
  · rw [if_pos hu]
    dsimp only
    cases acc with
    | none =>
      by_cases hcond : manhattan d p.2 < position_tolerance ∧
          position_role_ok d.placeholder_type p.2 = true
      · right
        rw [if_pos ⟨rfl, hcond.1, hcond.2⟩]
        exact ⟨rfl, hu, hcond.1, hcond.2, fun b0 h => by cases h⟩
      · left
        rw [if_neg fun hc => hcond ⟨hc.2.1, hc.2.2⟩]
        exact ⟨rfl, fun _ h2 h3 => absurd ⟨h2, h3⟩ hcond⟩
    | some b =>
      by_cases hlt : manhattan d p.2 < b.2
      · by_cases hcond : manhattan d p.2 < position_tolerance ∧
            position_role_ok d.placeholder_type p.2 = true
        · right
          rw [if_pos ⟨decide_eq_true hlt, hcond.1, hcond.2⟩]
          refine ⟨rfl, hu, hcond.1, hcond.2, ?_⟩
          intro b0 h
          cases h
          exact hlt
        · left
          rw [if_neg fun hc => hcond ⟨hc.2.1, hc.2.2⟩]
          exact ⟨rfl, fun _ h2 h3 => absurd ⟨h2, h3⟩ hcond⟩
      · left
        rw [if_neg fun hc => hlt (of_decide_eq_true hc.1)]
        exact ⟨rfl, fun _ _ _ => ⟨b, rfl, le_of_not_lt hlt⟩⟩
  · rw [if_neg hu]
    exact Or.inl ⟨rfl, fun h1 _ _ => absurd h1 hu⟩

theorem position_scan_min {d : ShapeData} {ctx : SlideContext} :
    ∀ (l : List (Nat × PptShape)) (acc : Option (Nat × Rat)) (i : Nat) (bd : Rat),
      position_scan d ctx l acc = some (i, bd) →
      (acc = some (i, bd) ∨
        ∃ s, (i, s) ∈ l ∧ i ∉ ctx.used_shapes ∧
          manhattan d s < position_tolerance ∧
          position_role_ok d.placeholder_type s = true ∧ manhattan d s = bd) ∧
      (∀ p ∈ l, p.1 ∉ ctx.used_shapes → manhattan d p.2 < position_tolerance →
        position_role_ok d.placeholder_type p.2 = true → bd ≤ manhattan d p.2) ∧
      (∀ b0, acc = some b0 → bd ≤ b0.2)
  | [], acc, i, bd, h => by
    have hacc : acc = some (i, bd) := h
    refine ⟨Or.inl hacc, by simp, ?_⟩
    intro b0 hb0
    rw [hacc] at hb0
    cases hb0
    exact le_refl bd
  | p :: ps, acc, i, bd, h => by
    rw [position_scan] at h
    have IH := position_scan_min ps (position_step d ctx acc p) i bd h
    rcases position_step_cases d ctx acc p with ⟨heq, himp⟩ | ⟨heq, hu, htol, hok, hlt⟩
    · rw [heq] at IH
      refine ⟨?_, ?_, IH.2.2⟩
      · rcases IH.1 with hacc | ⟨s, hs, h1, h2, h3, h4⟩
        · exact Or.inl hacc
        · exact Or.inr ⟨s, List.mem_cons_of_mem p hs, h1, h2, h3, h4⟩
      · intro q hq hq1 hq2 hq3
        rcases List.mem_cons.1 hq with rfl | hq
        · obtain ⟨b0, hb0, hle⟩ := himp hq1 hq2 hq3
          exact le_trans (IH.2.2 b0 hb0) hle
        · exact IH.2.1 q hq hq1 hq2 hq3
    · rw [heq] at IH
      refine ⟨?_, ?_, ?_⟩
      · rcases IH.1 with hacc | ⟨s, hs, h1, h2, h3, h4⟩
        · cases hacc
          exact Or.inr ⟨p.2, List.mem_cons_self p ps, hu, htol, hok, rfl⟩
        · exact Or.inr ⟨s, List.mem_cons_of_mem p hs, h1, h2, h3, h4⟩
      · intro q hq hq1 hq2 hq3
        rcases List.mem_cons.1 hq with rfl | hq
        · exact IH.2.2 (q.1, manhattan d q.2) rfl
        · exact IH.2.1 q hq hq1 hq2 hq3
      · intro b0 hb0
        exact le_trans (IH.2.2 (p.1, manhattan d p.2) rfl) (le_of_lt (hlt b0 hb0))

theorem position_scan_stays {d : ShapeData} {ctx : SlideContext} :
    ∀ (l : List (Nat × PptShape)) (acc : Option (Nat × Rat)),
      (∀ p ∈ l, p.1 ∉ ctx.used_shapes → position_tolerance ≤ manhattan d p.2) →
      position_scan d ctx l acc = acc
  | [], acc, _ => rfl
  | p :: ps, acc, hfar => by
    rw [position_scan]
    have hstep : position_step d ctx acc p = acc := by
      rcases position_step_cases d ctx acc p with ⟨heq, _⟩ | ⟨_, hu, htol, _, _⟩
      · exact heq
      · exact absurd htol (not_lt.2 (hfar p (List.mem_cons_self p ps) hu))
    rw [hstep]
    exact position_scan_stays ps acc fun q hq => hfar q (List.mem_cons_of_mem p hq)

theorem position_confidence_antitone {d1 d2 : Rat} (h : d1 ≤ d2) :
    position_confidence d2 ≤ position_confidence d1 := by
  unfold position_confidence ratMax
  have hdiv : d1 / position_tolerance ≤ d2 / position_tolerance := by
    apply div_le_div_of_nonneg_right h
    norm_num [position_tolerance]
  split_ifs <;> linarith

theorem position_confidence_min (dist : Rat) :
    (0.1 : Rat) ≤ position_confidence dist := by
  unfold position_confidence ratMax
  split_ifs with h
  · exact le_trans (le_refl _) h
  · exact le_refl _

/-- C3. The position strategy: (1) when every unconsumed candidate's
Manhattan distance is at or above the fixed tolerance no match is
produced; (2) a produced match lands on an unconsumed candidate
passing the role guard strictly within tolerance, whose distance is
least among all such accepted candidates, and its confidence is
exactly `max(0.1, 1 − distance/tolerance)`, which is at least 0.1;
(3) the confidence formula is monotonically decreasing in the
distance. -/
theorem C3_position_match_spec (shape_data : ShapeData) (context : SlideContext) :
    ((∀ p ∈ context.available_shapes, p.1 ∉ context.used_shapes →
        position_tolerance ≤ manhattan shape_data p.2) →
      try_position_match shape_data context = none) ∧
    (∀ m, try_position_match shape_data context = some m →
      ∃ s, (m.ppt_shape, s) ∈ context.available_shapes ∧
        m.ppt_shape ∉ context.used_shapes ∧
        manhattan shape_data s < position_tolerance ∧
        position_role_ok shape_data.placeholder_type s = true ∧
        m.confidence = position_confidence (manhattan shape_data s) ∧
        (∀ p ∈ context.available_shapes, p.1 ∉ context.used_shapes →
          manhattan shape_data p.2 < position_tolerance →
          position_role_ok shape_data.placeholder_type p.2 = true →
          manhattan shape_data s ≤ manhattan shape_data p.2) ∧
        (0.1 : Rat) ≤ m.confidence) ∧
    (∀ d1 d2 : Rat, d1 ≤ d2 →
      position_confidence d2 ≤ position_confidence d1) := by
  refine ⟨?_, ?_, fun d1 d2 h => position_confidence_antitone h⟩
  · intro hfar
    rw [try_position_match,
      position_scan_stays context.available_shapes none hfar]
  · intro m hm
    rw [try_position_match] at hm
    split at hm
    · exact absurd hm (by simp)
    · rename_i b hscan
      cases hm
      obtain ⟨hfound, hmin, -⟩ :=
        position_scan_min context.available_shapes none b.1 b.2 hscan
      rcases hfound with hacc | ⟨s, hs, h1, h2, h3, h4⟩
      · cases hacc
      · refine ⟨s, hs, h1, h2, h3, ?_, ?_, position_confidence_min b.2⟩
        · rw [h4]
        · intro p hp hp1 hp2 hp3
          rw [h4]
          exact hmin p hp hp1 hp2 hp3

/-- Witness for C3: a far-away candidate yields no match; a candidate
at Manhattan distance 50 yields the least-distance accepted match at
confidence `1 − 50/500000`; and the formula is antitone at `1 ≤ 2`. -/
theorem C3_position_match_spec_witness :
    try_position_match
      { name := "X", placeholder_type := "BODY", left_inches := 0,
        top_inches := 0, text := "", has_text_frame := true }
      (create_slide_context
        [{ name := "Far", hasTextFrame := true, left := 1000000000, top := 0,
           paragraphs := [] }]
        { slide_index := some 0, slide_layout_name := some "L", shapes := [] }) =
      none ∧
    (∃ s, ((0 : Nat), s) ∈ (create_slide_context
        [{ name := "Title 1", hasTextFrame := true, left := 100, top := 200,
           paragraphs := [] }]
        { slide_index := some 0, slide_layout_name := some "L",
          shapes := [] }).available_shapes ∧
      (0 : Nat) ∉ (create_slide_context
        [{ name := "Title 1", hasTextFrame := true, left := 100, top := 200,
           paragraphs := [] }]
        { slide_index := some 0, slide_layout_name := some "L",
          shapes := [] }).used_shapes ∧
      manhattan { name := "T", placeholder_type := "TITLE", left_inches := 100,
                  top_inches := 250, text := "", has_text_frame := true } s <
        position_tolerance ∧
      position_role_ok "TITLE" s = true ∧
      (9999 / 10000 : Rat) = position_confidence
        (manhattan { name := "T", placeholder_type := "TITLE", left_inches := 100,
                     top_inches := 250, text := "", has_text_frame := true } s) ∧
      (∀ p ∈ (create_slide_context
          [{ name := "Title 1", hasTextFrame := true, left := 100, top := 200,
             paragraphs := [] }]
          { slide_index := some 0, slide_layout_name := some "L",
            shapes := [] }).available_shapes,
        p.1 ∉ (create_slide_context
          [{ name := "Title 1", hasTextFrame := true, left := 100, top := 200,
             paragraphs := [] }]
          { slide_index := some 0, slide_layout_name := some "L",
            shapes := [] }).used_shapes →
        manhattan { name := "T", placeholder_type := "TITLE", left_inches := 100,
                    top_inches := 250, text := "", has_text_frame := true } p.2 <
          position_tolerance →
        position_role_ok "TITLE" p.2 = true →
        manhattan { name := "T", placeholder_type := "TITLE", left_inches := 100,
                    top_inches := 250, text := "", has_text_frame := true } s ≤
          manhattan { name := "T", placeholder_type := "TITLE", left_inches := 100,
                      top_inches := 250, text := "", has_text_frame := true } p.2) ∧
      (0.1 : Rat) ≤ (9999 / 10000 : Rat)) ∧
    position_confidence 2 ≤ position_confidence 1 := by
  refine ⟨(C3_position_match_spec _ _).1 (by decide), ?_,
    ((C3_position_match_spec
      { name := "T", placeholder_type := "TITLE", left_inches := 100,
        top_inches := 250, text := "", has_text_frame := true }
      (create_slide_context
        [{ name := "Title 1", hasTextFrame := true, left := 100, top := 200,
           paragraphs := [] }]
        { slide_index := some 0, slide_layout_name := some "L",
          shapes := [] })).2.2 1 2 (by norm_num))⟩
  exact (C3_position_match_spec
      { name := "T", placeholder_type := "TITLE", left_inches := 100,
        top_inches := 250, text := "", has_text_frame := true }
      (create_slide_context
        [{ name := "Title 1", hasTextFrame := true, left := 100, top := 200,
           paragraphs := [] }]
        { slide_index := some 0, slide_layout_name := some "L",
          shapes := [] })).2.1
    { json_shape := { name := "T", placeholder_type := "TITLE", left_inches := 100,
                      top_inches := 250, text := "", has_text_frame := true },
      ppt_shape := 0, confidence := 9999 / 10000, strategy := .position_based }
    (by decide)

/-! ## C4: the substring branch of content verification -/

/-- C4 counterexample. `"a b c d e"` is a substring of
`"a b c d e f"` after normalization and their word-Jaccard similarity
is `5/6 > 0.8`; the claim then requires a `content_mismatch` of
severity `warning`, but `_analyze_content_match` reports no issue at
all (the `> 0.8` case is treated as a close-enough match, and the
`≤ 0.8` substring case is the one reported as `warning`). -/
theorem C4_counterexample :
    normalize_text "a b c d e" ≠ normalize_text "a b c d e f" ∧
    pyIn (normalize_text "a b c d e") (normalize_text "a b c d e f") = true ∧
    calculate_similarity (normalize_text "a b c d e")
      (normalize_text "a b c d e f") > 0.8 ∧
    analyze_content_match 0 "Body" "OBJECT" "a b c d e" "a b c d e f" = none := by
  decide

/-- C4 (amended): for a verified shape whose non-empty actual text is
not default-template text and whose normalized texts are unequal but
substring-related, the verifier reports a `content_mismatch` of
severity `warning` exactly when the word-Jaccard similarity is at most
0.8, and reports no issue at all when the similarity exceeds 0.8 (the
substring case never yields a `critical` mismatch). -/
theorem C4_substring_similarity (slide_index : Int)
    (shape_name placeholder_type intended_text actual_text : String)
    (hne : actual_text ≠ "")
    (hdef : is_default_text actual_text = false)
    (hneq : normalize_text intended_text ≠ normalize_text actual_text)
    (hsub : pyIn (normalize_text intended_text) (normalize_text actual_text) = true ∨
      pyIn (normalize_text actual_text) (normalize_text intended_text) = true) :
    (calculate_similarity (normalize_text intended_text)
        (normalize_text actual_text) > 0.8 →
      analyze_content_match slide_index shape_name placeholder_type
        intended_text actual_text = none) ∧
    (¬ calculate_similarity (normalize_text intended_text)
        (normalize_text actual_text) > 0.8 →
      analyze_content_match slide_index shape_name placeholder_type
        intended_text actual_text =
        some { slide_index, shape_name, placeholder_type,
               issue_type := "content_mismatch",
               intended_content := intended_text,
               actual_content := actual_text,
               severity := "warning",
               description := "Content partially matches" }) := by
  unfold analyze_content_match
  dsimp only
  rw [if_neg hne, if_neg (by simp [hdef] : ¬ is_default_text actual_text = true),
    if_neg hneq, if_pos hsub]
  constructor
  · intro hgt
    rw [if_pos hgt]
  · intro hle
    rw [if_neg hle]

/-- Witness for C4: intended `"a b"` against actual `"a b c d e"` is a
substring pair of similarity `2/5 ≤ 0.8`, reported as a `warning`
content mismatch. -/
theorem C4_substring_similarity_witness :
    analyze_content_match 0 "Body" "OBJECT" "a b" "a b c d e" =
      some { slide_index := 0, shape_name := "Body", placeholder_type := "OBJECT",
             issue_type := "content_mismatch", intended_content := "a b",
             actual_content := "a b c d e", severity := "warning",
             description := "Content partially matches" } :=
  (C4_substring_similarity 0 "Body" "OBJECT" "a b" "a b c d e"
    (by decide) (by decide) (by decide) (by decide)).2 (by decide)

/-! ## C5: fallback-order strategy coverage -/

/-- C5 counterexample. An OBJECT content shape on a slide whose only
unconsumed eligible shape is named `"Rectangle 1"`: the fallback
strategy returns no match at all, because for OBJECT it only accepts
shapes whose names mark them as content placeholders and the
0.3 any-shape last resort exists only for roles other than
OBJECT/TITLE/SUBTITLE. -/
theorem C5_counterexample :
    (∃ p ∈ (create_slide_context
        [{ name := "Rectangle 1", hasTextFrame := true, left := 0, top := 0,
           paragraphs := ["hello there friend"] }]
        { slide_index := some 0, slide_layout_name := some "L",
          shapes := [] }).available_shapes,
      p.1 ∉ (create_slide_context
        [{ name := "Rectangle 1", hasTextFrame := true, left := 0, top := 0,
           paragraphs := ["hello there friend"] }]
        { slide_index := some 0, slide_layout_name := some "L",
          shapes := [] }).used_shapes) ∧
    try_fallback_order_match
      { name := "X", placeholder_type := "OBJECT", left_inches := 0,
        top_inches := 0, text := "hi", has_text_frame := true }
      (create_slide_context
        [{ name := "Rectangle 1", hasTextFrame := true, left := 0, top := 0,
           paragraphs := ["hello there friend"] }]
        { slide_index := some 0, slide_layout_name := some "L",
          shapes := [] }) = none := by
  decide

/-- C5 (amended): the any-unconsumed-shape 0.3 last resort of
`_try_fallback_order_match` exists only for placeholder types other
than OBJECT, TITLE and SUBTITLE — for those roles, any shape yields a
0.4 substring-role or 0.3 last-resort match whenever an unconsumed
shape remains; for OBJECT (resp. TITLE, SUBTITLE) the strategy returns
no match once the role-specific candidates (content-placeholder-named,
title-named, subtitle-named unconsumed shapes) are exhausted, so those
content shapes can be left without a target. -/
theorem C5_fallback_role_gates (shape_data : ShapeData) (context : SlideContext) :
    (shape_data.placeholder_type ≠ "OBJECT" →
      shape_data.placeholder_type ≠ "TITLE" →
      shape_data.placeholder_type ≠ "SUBTITLE" →
      (∃ p ∈ context.available_shapes, p.1 ∉ context.used_shapes) →
      ∃ m, try_fallback_order_match shape_data context = some m ∧
        m.ppt_shape ∉ context.used_shapes ∧
        (m.confidence = 0.4 ∨ m.confidence = 0.3) ∧
        m.strategy = .fallback_order) ∧
    (shape_data.placeholder_type = "OBJECT" →
      (∀ p ∈ context.available_shapes, p.1 ∉ context.used_shapes →
        ¬(pyIn "content" (pyLower p.2.name) = true ∧
          pyIn "placeholder" (pyLower p.2.name) = true)) →
      try_fallback_order_match shape_data context = none) ∧
    (shape_data.placeholder_type = "TITLE" →
      (∀ p ∈ context.available_shapes, p.1 ∉ context.used_shapes →
        pyIn "title" (pyLower p.2.name) = false) →
      try_fallback_order_match shape_data context = none) ∧
    (shape_data.placeholder_type = "SUBTITLE" →
      (∀ p ∈ context.available_shapes, p.1 ∉ context.used_shapes →
        pyIn "subtitle" (pyLower p.2.name) = false) →
      try_fallback_order_match shape_data context = none) := by
  refine ⟨?_, ?_, ?_, ?_⟩
  · intro hobj htitle hsub hexists
    rw [try_fallback_order_match, if_neg hobj, if_neg htitle, if_neg hsub]
    split
    · rename_i m hfs
      obtain ⟨p, hp, heq⟩ := firstSome_eq_some hfs
      split at heq
      · rename_i hcond
        cases heq
        exact ⟨_, rfl, hcond.1, Or.inl rfl, rfl⟩
      · exact absurd heq (by simp)
    · rename_i hnone
      obtain ⟨p, hp, hu⟩ := hexists
      have hsome : (firstSome (fun p =>
          if p.1 ∉ context.used_shapes then
            some ({ json_shape := shape_data, ppt_shape := p.1, confidence := 0.3,
                    strategy := MatchingStrategy.fallback_order } : PlaceholderMatch)
          else none) context.available_shapes).isSome := by
        apply firstSome_isSome
        exact ⟨p, hp, by rw [if_pos hu]; rfl⟩
      obtain ⟨m, hm⟩ := Option.isSome_iff_exists.1 hsome
      obtain ⟨q, hq, heq⟩ := firstSome_eq_some hm
      rw [hm]
      split at heq
      · rename_i hqu
        cases heq
        exact ⟨_, rfl, hqu, Or.inr rfl, rfl⟩
      · exact absurd heq (by simp)
  · intro hobj hnone
    rw [try_fallback_order_match, if_pos hobj]
    apply firstSome_eq_none
    intro p hp
    by_cases hu : p.1 ∉ context.used_shapes
    · rw [if_neg fun hc => hnone p hp hu ⟨hc.2.1, hc.2.2⟩]
    · rw [if_neg fun hc => hu hc.1]
  · intro htitle hnone
    have : shape_data.placeholder_type ≠ "OBJECT" := by rw [htitle]; decide
    rw [try_fallback_order_match, if_neg this, if_pos htitle]
    apply firstSome_eq_none
    intro p hp
    by_cases hu : p.1 ∉ context.used_shapes
    · rw [if_neg fun hc => by rw [hnone p hp hu] at hc; exact absurd hc.2 (by simp)]
    · rw [if_neg fun hc => hu hc.1]
  · intro hsub hnone
    have h1 : shape_data.placeholder_type ≠ "OBJECT" := by rw [hsub]; decide
    have h2 : shape_data.placeholder_type ≠ "TITLE" := by rw [hsub]; decide
    rw [try_fallback_order_match, if_neg h1, if_neg h2, if_pos hsub]
    apply firstSome_eq_none
    intro p hp
    by_cases hu : p.1 ∉ context.used_shapes
    · rw [if_neg fun hc => by rw [hnone p hp hu] at hc; exact absurd hc.2 (by simp)]
    · rw [if_neg fun hc => hu hc.1]

/-- Witness for C5: a BODY shape still obtains the 0.3 last resort,
while an OBJECT shape with only a `"Rectangle 1"` candidate obtains
nothing. -/
theorem C5_fallback_role_gates_witness :
    (∃ m, try_fallback_order_match
        { name := "Y", placeholder_type := "BODY", left_inches := 0,
          top_inches := 0, text := "hi", has_text_frame := true }
        (create_slide_context
          [{ name := "Rectangle 1", hasTextFrame := true, left := 0, top := 0,
             paragraphs := ["hello there friend"] }]
          { slide_index := some 0, slide_layout_name := some "L",
            shapes := [] }) = some m ∧
      m.ppt_shape ∉ (create_slide_context
          [{ name := "Rectangle 1", hasTextFrame := true, left := 0, top := 0,
             paragraphs := ["hello there friend"] }]
          { slide_index := some 0, slide_layout_name := some "L",
            shapes := [] }).used_shapes ∧
      (m.confidence = 0.4 ∨ m.confidence = 0.3) ∧
      m.strategy = .fallback_order) ∧
    try_fallback_order_match
      { name := "Z", placeholder_type := "TITLE", left_inches := 0,
        top_inches := 0, text := "hi", has_text_frame := true }
      (create_slide_context
        [{ name := "Rectangle 1", hasTextFrame := true, left := 0, top := 0,
           paragraphs := ["hello there friend"] }]
        { slide_index := some 0, slide_layout_name := some "L",
          shapes := [] }) = none :=
  ⟨(C5_fallback_role_gates
      { name := "Y", placeholder_type := "BODY", left_inches := 0,
        top_inches := 0, text := "hi", has_text_frame := true }
      (create_slide_context
        [{ name := "Rectangle 1", hasTextFrame := true, left := 0, top := 0,
           paragraphs := ["hello there friend"] }]
        { slide_index := some 0, slide_layout_name := some "L",
          shapes := [] })).1
    (by decide) (by decide) (by decide) (by decide),
   (C5_fallback_role_gates
      { name := "Z", placeholder_type := "TITLE", left_inches := 0,
        top_inches := 0, text := "hi", has_text_frame := true }
      (create_slide_context
        [{ name := "Rectangle 1", hasTextFrame := true, left := 0, top := 0,
           paragraphs := ["hello there friend"] }]
        { slide_index := some 0, slide_layout_name := some "L",
          shapes := [] })).2.2.1 (by decide) (by decide)⟩

/-! ## C6: multi-line application and the empty-after-cleanup guard -/

/-- C6. Applying an intended text of `"A\nB\nC"` to any shape writes
exactly the three container lines `"A"`, `"B"`, `"C"` (one paragraph
per newline-delimited line, blank lines skipped) and counts as an
update; applying a text that is empty, or that contains the
`"(missing)"` marker and is empty after the marker is stripped, leaves
the shape's text container (and the whole shape) completely
unchanged. -/
theorem C6_apply_content (shape : PptShape) (raw_text : String) :
    ((apply_content_to_shape "A\nB\nC" shape).1.paragraphs = ["A", "B", "C"] ∧
      (apply_content_to_shape "A\nB\nC" shape).2 = true) ∧
    (raw_text = "" ∨
      (pyIn "(missing)" raw_text = true ∧
        pyStrip (pyReplace (pyReplace raw_text " (missing)" "") "(missing)" "") = "") →
      apply_content_to_shape raw_text shape = (shape, false)) := by
  constructor
  · have hc : cleanup_text "A\nB\nC" = some "A\nB\nC" := by decide
    have hl : apply_multiline_text "A\nB\nC" = ["A", "B", "C"] := by decide
    rw [apply_content_to_shape, hc]
    dsimp only
    rw [hl]
    exact ⟨rfl, rfl⟩
  · intro h
    have hc : cleanup_text raw_text = none := by
      rw [cleanup_text]
      rcases h with rfl | ⟨hin, hclean⟩
      · rw [if_pos (Or.inl rfl)]
        dsimp only
        rw [if_neg (by decide : ¬("" : String) ≠ ""), if_pos rfl]
      · rw [if_pos (Or.inr hin)]
        dsimp only
        by_cases hraw : raw_text ≠ ""
        · rw [if_pos hraw, if_pos hclean]
        · rw [if_neg hraw]
          push_neg at hraw
          rw [if_pos hraw]
    rw [apply_content_to_shape, hc]

/-- Witness for C6: applying the bare `"(missing)"` marker leaves a
shape with existing text untouched. -/
theorem C6_apply_content_witness :
    apply_content_to_shape "(missing)"
      { name := "Body", hasTextFrame := true, left := 0, top := 0,
        paragraphs := ["keep me"] } =
      ({ name := "Body", hasTextFrame := true, left := 0, top := 0,
         paragraphs := ["keep me"] }, false) :=
  (C6_apply_content
    { name := "Body", hasTextFrame := true, left := 0, top := 0,
      paragraphs := ["keep me"] } "(missing)").2 (by decide)

/-! ## C7: verification of an exactly-matching document -/

theorem str_mk_ne_empty {l : List Char} (h : l ≠ []) : (⟨l⟩ : String) ≠ "" := by
  intro heq
  apply h
  have := congrArg String.data heq
  simpa using this

theorem splitChL_ne_nil (p : Char → Bool) : ∀ l : List Char, splitChL p l ≠ []
  | [] => by simp [splitChL]
  | c :: cs => by
    rw [splitChL]
    by_cases hp : p c = true
    · rw [if_pos hp]
      simp
    · rw [if_neg hp]
      rcases hsp : splitChL p cs with _ | ⟨w, ws⟩
    
      · simp
      · simp

theorem splitChL_has_word (p : Char → Bool) :
    ∀ l : List Char, (∃ c ∈ l, p c = false) → ∃ w ∈ splitChL p l, w ≠ []
  | [] => by simp
  | c :: cs => by
    intro hex
    rw [splitChL]
    by_cases hp : p c = true
    · rw [if_pos hp]
      have hex' : ∃ c' ∈ cs, p c' = false := by
        obtain ⟨c', hc', hpc'⟩ := hex
        rcases List.mem_cons.1 hc' with rfl | hmem
        · rw [hp] at hpc'
          exact absurd hpc' (by simp)
        · exact ⟨c', hmem, hpc'⟩
      obtain ⟨w, hw, hne⟩ := splitChL_has_word p cs hex'
      exact ⟨w, List.mem_cons_of_mem _ hw, hne⟩
    · rw [if_neg hp]
      rcases hsp : splitChL p cs with _ | ⟨w, ws⟩
      · exact absurd hsp (splitChL_ne_nil p cs)
      · exact ⟨c :: w, List.mem_cons_self _ _, by simp⟩

theorem pyWords_ne_nil {s : String}
    (h : ∃ c ∈ s.toList, c.isWhitespace = false) : pyWords s ≠ [] := by
  obtain ⟨w, hw, hne⟩ := splitChL_has_word Char.isWhitespace s.toList h
  apply List.ne_nil_of_mem (a := (⟨w⟩ : String))
  rw [pyWords]
  apply List.mem_filter.2
  refine ⟨List.mem_map.2 ⟨w, hw, rfl⟩, ?_⟩
  simpa using str_mk_ne_empty hne

theorem pyWords_all_ne_empty {s : String} {w : String} (h : w ∈ pyWords s) : w ≠ "" := by
  rw [pyWords] at h
  have := List.of_mem_filter h
  simpa using this

theorem joinWords_ne_empty : ∀ ws : List String, ws ≠ [] → (∀ w ∈ ws, w ≠ "") →
    joinWords ws ≠ ""
  | [], h, _ => absurd rfl h
  | [w], _, hall => by
    rw [joinWords]
    exact hall w (List.mem_cons_self w [])
  | w :: w' :: rest, _, hall => by
    show w ++ " " ++ joinWords (w' :: rest) ≠ ""
    intro heq
    have hlen := congrArg String.length heq
    rw [String.length_append, String.length_append] at hlen
    have h1 : (" " : String).length = 1 := rfl
    have h0 : ("" : String).length = 0 := rfl
    omega

theorem pyLower_ne_empty {s : String} (h : s ≠ "") : pyLower s ≠ "" := by
  intro heq
  apply h
  have hmap : s.data.map Char.toLower = [] := congrArg String.data heq
  have hnil : s.data = [] := List.map_eq_nil_iff.1 hmap
  cases s with
  | mk data =>
    have hnil' : data = [] := hnil
    subst hnil'
    rfl

theorem normalize_text_strip_ne_empty {t : String} (h : pyStrip t ≠ "") :
    normalize_text (pyStrip t) ≠ "" := by
  have hchar : ∃ c ∈ (pyStrip t).toList, c.isWhitespace = false := by
    have hl : ((t.toList.dropWhile Char.isWhitespace).reverse.dropWhile
        Char.isWhitespace) ≠ [] := by
      intro hnil
      apply h
      rw [pyStrip, hnil]
      rfl
    refine ⟨((t.toList.dropWhile Char.isWhitespace).reverse.dropWhile
        Char.isWhitespace).head hl, ?_, ?_⟩
    · show _ ∈ ((t.toList.dropWhile Char.isWhitespace).reverse.dropWhile
        Char.isWhitespace).reverse
      rw [List.mem_reverse]
      exact List.head_mem hl
    · exact List.head_dropWhile_not Char.isWhitespace _ hl
  rw [normalize_text]
  apply pyLower_ne_empty
  apply joinWords_ne_empty
  · exact pyWords_ne_nil hchar
  · intro w hw
    exact pyWords_all_ne_empty hw

theorem analyze_content_match_of_equal {slide_index : Int}
    {shape_name placeholder_type intended_text actual_text : String}
    (hnorm : normalize_text intended_text = normalize_text actual_text)
    (hne : normalize_text intended_text ≠ "")
    (hdef : is_default_text actual_text = false) :
    analyze_content_match slide_index shape_name placeholder_type
      intended_text actual_text = none := by
  have hat : actual_text ≠ "" := by
    rintro rfl
    exact hne (hnorm.trans (by decide))
  unfold analyze_content_match
  dsimp only
  rw [if_neg hat, if_neg (by simp [hdef] : ¬ is_default_text actual_text = true),
    if_pos hnorm]

theorem compare_one_shape_no_issue (slide_index : Int)
    (actual_shapes : List (String × ShapeData)) (mismatches : List ContentMismatch)
    (shape : ShapeData)
    (hyp : verifier_is_content_shape shape = true →
      pyStrip shape.text ≠ "" → pyStrip shape.text ≠ "(missing)" →
      ∃ a, find_matching_actual_shape shape.name shape.placeholder_type
          actual_shapes shape = some a ∧
        normalize_text (pyStrip shape.text) = normalize_text (pyStrip a.text) ∧
        is_default_text (pyStrip a.text) = false) :
    compare_one_shape slide_index actual_shapes mismatches shape = mismatches := by
  unfold compare_one_shape
  by_cases hcs : ¬ verifier_is_content_shape shape = true
  · rw [if_pos hcs]
  · rw [if_neg hcs]
    push_neg at hcs
    dsimp only
    by_cases hblank : pyStrip shape.text = "" ∨ pyStrip shape.text = "(missing)"
    · rw [if_pos hblank]
    · rw [if_neg hblank]
      push_neg at hblank
      obtain ⟨a, hfind, hnorm, hdef⟩ := hyp hcs hblank.1 hblank.2
      rw [hfind]
      dsimp only
      rw [analyze_content_match_of_equal hnorm
        (normalize_text_strip_ne_empty hblank.1) hdef]

theorem foldl_compare_one_shape_no_issue (slide_index : Int)
    (actual_shapes : List (String × ShapeData)) :
    ∀ (shapes : List ShapeData) (acc : List ContentMismatch),
      (∀ shape ∈ shapes, verifier_is_content_shape shape = true →
        pyStrip shape.text ≠ "" → pyStrip shape.text ≠ "(missing)" →
        ∃ a, find_matching_actual_shape shape.name shape.placeholder_type
            actual_shapes shape = some a ∧
          normalize_text (pyStrip shape.text) = normalize_text (pyStrip a.text) ∧
          is_default_text (pyStrip a.text) = false) →
      shapes.foldl (compare_one_shape slide_index actual_shapes) acc = acc
  | [], acc, _ => rfl
  | shape :: shapes, acc, hyp => by
    rw [List.foldl_cons,
      compare_one_shape_no_issue slide_index actual_shapes acc shape
        (hyp shape (List.mem_cons_self shape shapes))]
    exact foldl_compare_one_shape_no_issue slide_index actual_shapes shapes acc
      fun q hq => hyp q (List.mem_cons_of_mem shape hq)

theorem compare_slide_shapes_no_issue (slide_index : Int)
    (actual_slide intended_slide : SlideData)
    (hyp : ∀ shape ∈ intended_slide.shapes, verifier_is_content_shape shape = true →
      pyStrip shape.text ≠ "" → pyStrip shape.text ≠ "(missing)" →
      ∃ a, find_matching_actual_shape shape.name shape.placeholder_type
          (shape_dict actual_slide.shapes) shape = some a ∧
        normalize_text (pyStrip shape.text) = normalize_text (pyStrip a.text) ∧
        is_default_text (pyStrip a.text) = false) :
    compare_slide_shapes slide_index actual_slide intended_slide = [] :=
  foldl_compare_one_shape_no_issue slide_index (shape_dict actual_slide.shapes)
    intended_slide.shapes [] hyp

theorem compare_content_no_issue (actual_content : List SlideData) :
    ∀ (slides : List (Int × SlideData)) (acc : List ContentMismatch),
      (∀ p ∈ slides,
        ∃ actual_slide, dictGet p.1 (slide_dict actual_content) = some actual_slide ∧
          ∀ shape ∈ p.2.shapes, verifier_is_content_shape shape = true →
            pyStrip shape.text ≠ "" → pyStrip shape.text ≠ "(missing)" →
            ∃ a, find_matching_actual_shape shape.name shape.placeholder_type
                (shape_dict actual_slide.shapes) shape = some a ∧
              normalize_text (pyStrip shape.text) =
                normalize_text (pyStrip a.text) ∧
              is_default_text (pyStrip a.text) = false) →
      slides.foldl (compare_one_slide (slide_dict actual_content)) acc = acc
  | [], acc, _ => rfl
  | p :: slides, acc, hyp => by
    obtain ⟨actual_slide, hget, hshapes⟩ := hyp p (List.mem_cons_self p slides)
    rw [List.foldl_cons]
    have hone : compare_one_slide (slide_dict actual_content) acc p = acc := by
      unfold compare_one_slide
      rw [hget]
      dsimp only
      rw [compare_slide_shapes_no_issue p.1 actual_slide p.2 hshapes]
      exact List.append_nil acc
    rw [hone]
    exact compare_content_no_issue actual_content slides acc
      fun q hq => hyp q (List.mem_cons_of_mem p hq)

/-- C7 counterexample. Three concrete refutations of the claim as
stated, quantifying only over the equal-counterpart hypothesis:
(a) intended and actual text both `"lorem ipsum"` — the exact-name
counterpart has identical normalized text, yet verification reports a
critical `default_text` mismatch, `overall_status = "fail"` and
`success_rate = 0`; (b) an empty intent satisfies the hypothesis
vacuously but yields `success_rate = 0 ≠ 100.0`; (c) an intent slide
whose only content shape has empty text (hypothesis again vacuous)
against a document with no slides yields a `missing_slide` mismatch
and `overall_status = "fail"`. -/
theorem C7_counterexample :
    (find_matching_actual_shape "Body" "OBJECT"
        (shape_dict [{ name := "Body", placeholder_type := "OBJECT",
                       left_inches := 1, top_inches := 1, text := "lorem ipsum",
                       has_text_frame := true }])
        { name := "Body", placeholder_type := "OBJECT", left_inches := 1,
          top_inches := 1, text := "lorem ipsum", has_text_frame := true } =
      some { name := "Body", placeholder_type := "OBJECT", left_inches := 1,
             top_inches := 1, text := "lorem ipsum", has_text_frame := true } ∧
      (build_verification_result
        [{ slide_index := some 0, slide_layout_name := some "L",
           shapes := [{ name := "Body", placeholder_type := "OBJECT",
                        left_inches := 1, top_inches := 1, text := "lorem ipsum",
                        has_text_frame := true }] }]
        [{ slide_index := some 0, slide_layout_name := some "L",
           shapes := [{ name := "Body", placeholder_type := "OBJECT",
                        left_inches := 1, top_inches := 1, text := "lorem ipsum",
                        has_text_frame := true }] }]).mismatches ≠ [] ∧
      (build_verification_result
        [{ slide_index := some 0, slide_layout_name := some "L",
           shapes := [{ name := "Body", placeholder_type := "OBJECT",
                        left_inches := 1, top_inches := 1, text := "lorem ipsum",
                        has_text_frame := true }] }]
        [{ slide_index := some 0, slide_layout_name := some "L",
           shapes := [{ name := "Body", placeholder_type := "OBJECT",
                        left_inches := 1, top_inches := 1, text := "lorem ipsum",
                        has_text_frame := true }] }]).overall_status = "fail" ∧
      (build_verification_result
        [{ slide_index := some 0, slide_layout_name := some "L",
           shapes := [{ name := "Body", placeholder_type := "OBJECT",
                        left_inches := 1, top_inches := 1, text := "lorem ipsum",
                        has_text_frame := true }] }]
        [{ slide_index := some 0, slide_layout_name := some "L",
           shapes := [{ name := "Body", placeholder_type := "OBJECT",
                        left_inches := 1, top_inches := 1, text := "lorem ipsum",
                        has_text_frame := true }] }]).success_rate = 0) ∧
    ((build_verification_result [] []).mismatches = [] ∧
      (build_verification_result [] []).success_rate = 0) ∧
    ((build_verification_result []
        [{ slide_index := some 0, slide_layout_name := some "L",
           shapes := [{ name := "Body", placeholder_type := "OBJECT",
                        left_inches := 1, top_inches := 1, text := "",
                        has_text_frame := true }] }]).mismatches ≠ [] ∧
      (build_verification_result []
        [{ slide_index := some 0, slide_layout_name := some "L",
           shapes := [{ name := "Body", placeholder_type := "OBJECT",
                        left_inches := 1, top_inches := 1, text := "",
                        has_text_frame := true }] }]).overall_status = "fail") := by
  decide

/-- C7 (amended): for every document and intent in which every
intended slide index resolves to an actual slide, every intended
content shape with non-blank (and non-`"(missing)"`) text is resolved
by the counterpart finder to a shape whose normalized text equals the
intended normalized text, and no such counterpart text is
default-template text, verification yields an empty mismatch list and
`overall_status = "pass"`; `success_rate` is 100.0 when at least one
content shape with text exists (and 0.0 when none). -/
theorem C7_exact_equality_verifies (actual_content intended_content : List SlideData)
    (hyp : ∀ p ∈ slide_dict intended_content,
      ∃ actual_slide, dictGet p.1 (slide_dict actual_content) = some actual_slide ∧
        ∀ shape ∈ p.2.shapes, verifier_is_content_shape shape = true →
          pyStrip shape.text ≠ "" → pyStrip shape.text ≠ "(missing)" →
          ∃ a, find_matching_actual_shape shape.name shape.placeholder_type
              (shape_dict actual_slide.shapes) shape = some a ∧
            normalize_text (pyStrip shape.text) = normalize_text (pyStrip a.text) ∧
            is_default_text (pyStrip a.text) = false) :
    (build_verification_result actual_content intended_content).mismatches = [] ∧
    (build_verification_result actual_content intended_content).overall_status =
      "pass" ∧
    (0 < count_content_shapes intended_content →
      (build_verification_result actual_content intended_content).success_rate =
        100) := by
  have hcmp : compare_content actual_content intended_content = [] :=
    compare_content_no_issue actual_content (slide_dict intended_content) [] hyp
  unfold build_verification_result
  rw [hcmp]
  dsimp only
  refine ⟨rfl, by rw [determine_overall_status]; rfl, ?_⟩
  intro hpos
  rw [if_pos hpos]
  have hne : ((count_content_shapes intended_content : Int) : Rat) ≠ 0 := by
    have : (0 : Int) < (count_content_shapes intended_content : Int) := by
      exact_mod_cast hpos
    intro hzero
    rw [show ((count_content_shapes intended_content : Int) : Rat) =
      ((count_content_shapes intended_content : Rat)) by push_cast; ring] at hzero
    have : (count_content_shapes intended_content : Rat) > 0 := by
      exact_mod_cast hpos
    linarith
  push_cast
  field_simp

/-- Witness for C7: a one-slide document whose single OBJECT shape
carries exactly the intended text verifies to `pass` at 100 percent. -/
theorem C7_exact_equality_verifies_witness :
    (build_verification_result
      [{ slide_index := some 0, slide_layout_name := some "L",
         shapes := [{ name := "Body", placeholder_type := "OBJECT",
                      left_inches := 1, top_inches := 1,
                      text := "Quarterly revenue grew",
                      has_text_frame := true }] }]
      [{ slide_index := some 0, slide_layout_name := some "L",
         shapes := [{ name := "Body", placeholder_type := "OBJECT",
                      left_inches := 1, top_inches := 1,
                      text := "Quarterly revenue grew",
                      has_text_frame := true }] }]).mismatches = [] ∧
    (build_verification_result
      [{ slide_index := some 0, slide_layout_name := some "L",
         shapes := [{ name := "Body", placeholder_type := "OBJECT",
                      left_inches := 1, top_inches := 1,
                      text := "Quarterly revenue grew",
                      has_text_frame := true }] }]
      [{ slide_index := some 0, slide_layout_name := some "L",
         shapes := [{ name := "Body", placeholder_type := "OBJECT",
                      left_inches := 1, top_inches := 1,
                      text := "Quarterly revenue grew",
                      has_text_frame := true }] }]).overall_status = "pass" ∧
    (0 < count_content_shapes
      [{ slide_index := some 0, slide_layout_name := some "L",
         shapes := [{ name := "Body", placeholder_type := "OBJECT",
                      left_inches := 1, top_inches := 1,
                      text := "Quarterly revenue grew",
                      has_text_frame := true }] }] →
      (build_verification_result
        [{ slide_index := some 0, slide_layout_name := some "L",
           shapes := [{ name := "Body", placeholder_type := "OBJECT",
                        left_inches := 1, top_inches := 1,
                        text := "Quarterly revenue grew",
                        has_text_frame := true }] }]
        [{ slide_index := some 0, slide_layout_name := some "L",
           shapes := [{ name := "Body", placeholder_type := "OBJECT",
                        left_inches := 1, top_inches := 1,
                        text := "Quarterly revenue grew",
                        has_text_frame := true }] }]).success_rate = 100) :=
  C7_exact_equality_verifies _ _ (by decide)

/-! ## C8: exception containment in the repair pass -/

/-- C8 counterexample. One slide with two critical issues, where the
text-frame write raises only for the first issue: the first issue is
recorded as a failed `RepairResult` carrying the error message (its
shape left cleared by the aborted write), but the second issue of the
same slide is still repaired successfully — the catch granularity is
per-issue, not per-slide, so the claim that every queued issue of the
slide is marked failed is false. -/
theorem C8_counterexample :
    ((fix_critical_issues none none
        (fun i => if i.shape_name = "A" then some (0, "boom") else none)
        [[{ name := "A", hasTextFrame := true, left := 0, top := 0,
            paragraphs := [] },
          { name := "B", hasTextFrame := true, left := 0, top := 5000000,
            paragraphs := [] }]]
        [{ slide_index := some 0, slide_layout_name := some "Layout",
           shapes := [{ name := "A", placeholder_type := "OBJECT",
                        left_inches := 0, top_inches := 0, text := "Hello",
                        has_text_frame := true },
                      { name := "B", placeholder_type := "OBJECT",
                        left_inches := 0, top_inches := 0, text := "World",
                        has_text_frame := true }] }]
        [{ slide_index := 0, shape_name := "A", placeholder_type := "OBJECT",
           issue_type := "empty_placeholder", intended_content := "Hello",
           actual_content := "", severity := "critical", description := "" },
         { slide_index := 0, shape_name := "B", placeholder_type := "OBJECT",
           issue_type := "empty_placeholder", intended_content := "World",
           actual_content := "", severity := "critical",
           description := "" }]).2.map
      fun r => (r.mismatch.shape_name, r.repair_attempted, r.repair_successful,
                r.repair_method, r.error_message)) =
      [("A", true, false, "error", some "boom"),
       ("B", true, true, "exact_name", none)] := by
  decide

/-- C8 (amended): exceptions in the repair pass are contained, but at
per-issue granularity: (1) a write exception while repairing one issue
yields a failed `RepairResult` with method `"error"` carrying the
message, mutating at most the matched document shape — since the
source raises at or after `text_frame.clear()`, that shape's container
is left cleared and partially written; (2) every queued issue receives
exactly one `RepairResult`; (3) the per-issue loop is compositional —
a repaired or failed issue never blocks the remaining issues, which
proceed from the resulting slide state; (4) an exception while loading
the presentation is caught by the outer handler, which records a
failed `RepairResult` for every critical issue instead of raising;
(5) an exception while saving likewise appends a failed `RepairResult`
for every critical issue on top of the per-slide results already
accumulated; no structural, write, or repair exception escapes. -/
theorem C8_repair_error_containment :
    (∀ (write_failure : ContentMismatch → Option (Nat × String))
        (slide : List PptShape)
        (intended_content_map : List (String × ShapeData))
        (issue : ContentMismatch) (k : Nat) (e : String)
        (intended_shape : ShapeData) (best : PlaceholderMatch)
        (rest_matches : List PlaceholderMatch),
      write_failure issue = some (k, e) →
      dictGet issue.shape_name intended_content_map = some intended_shape →
      pyStrip intended_shape.text ≠ "" →
      match_placeholders_for_slide slide
        { slide_index := none, slide_layout_name := none,
          shapes := [intended_shape] } = best :: rest_matches →
      attempt_single_repair write_failure slide issue intended_content_map =
        (listModify
          (fun shape => { shape with
            paragraphs :=
              partial_multiline_text (pyStrip intended_shape.text) k })
          best.ppt_shape slide,
         { mismatch := issue, repair_attempted := true,
           repair_successful := false, repair_method := "error",
           new_content := "", error_message := some e })) ∧
    (∀ (write_failure : ContentMismatch → Option (Nat × String))
        (intended_content_map : List (String × ShapeData))
        (slide : List PptShape) (issues : List ContentMismatch),
      (repair_slide_loop write_failure intended_content_map slide
        issues).2.length = issues.length) ∧
    (∀ (write_failure : ContentMismatch → Option (Nat × String))
        (intended_content_map : List (String × ShapeData))
        (slide slide' : List PptShape) (issue : ContentMismatch)
        (rest : List ContentMismatch) (r : RepairResult),
      attempt_single_repair write_failure slide issue intended_content_map =
        (slide', r) →
      repair_slide_loop write_failure intended_content_map slide (issue :: rest) =
        ((repair_slide_loop write_failure intended_content_map slide' rest).1,
         r :: (repair_slide_loop write_failure intended_content_map slide'
           rest).2)) ∧
    (∀ (e : String) (save_failure : Option String)
        (write_failure : ContentMismatch → Option (Nat × String))
        (prs : List (List PptShape)) (intended_content : List SlideData)
        (critical_issues : List ContentMismatch),
      fix_critical_issues (some e) save_failure write_failure prs
        intended_content critical_issues =
        (prs, critical_issues.map (failed_repair_result e))) ∧
    (∀ (e : String) (write_failure : ContentMismatch → Option (Nat × String))
        (prs : List (List PptShape)) (intended_content : List SlideData)
        (critical_issues : List ContentMismatch),
      (fix_issues_loop write_failure intended_content
        (group_issues_by_slide critical_issues) prs).2.2 = none →
      fix_critical_issues none (some e) write_failure prs
        intended_content critical_issues =
        ((fix_issues_loop write_failure intended_content
            (group_issues_by_slide critical_issues) prs).1,
         (fix_issues_loop write_failure intended_content
            (group_issues_by_slide critical_issues) prs).2.1 ++
           critical_issues.map (failed_repair_result e))) := by
  refine ⟨?_, ?_, ?_, ?_, ?_⟩
  · intro write_failure slide intended_content_map issue k e intended_shape
      best rest_matches hwf hget htext hm
    unfold attempt_single_repair
    rw [hget]
    dsimp only
    rw [hm]
    dsimp only
    rw [if_neg htext, hwf]
  · intro write_failure intended_content_map slide issues
    induction issues generalizing slide with
    | nil => rfl
    | cons issue rest ih =>
      rw [repair_slide_loop]
      dsimp only
      rw [List.length_cons, ih]
      simp
  · intro write_failure intended_content_map slide slide' issue rest r hatt
    rw [repair_slide_loop, hatt]
  · intro e save_failure write_failure prs intended_content critical_issues
    rfl
  · intro e write_failure prs intended_content critical_issues hloop
    unfold fix_critical_issues
    dsimp only
    rw [hloop]

/-- Witness for C8: the first issue of the counterexample slide, with
the write raising `"boom"` right after `clear()` (zero lines written),
produces exactly the failed `RepairResult` and leaves shape 0 cleared
to a single empty paragraph. -/
theorem C8_repair_error_containment_witness :
    attempt_single_repair
      (fun i => if i.shape_name = "A" then some (0, "boom") else none)
      [{ name := "A", hasTextFrame := true, left := 0, top := 0,
         paragraphs := ["old A text"] },
       { name := "B", hasTextFrame := true, left := 0, top := 5000000,
         paragraphs := [] }]
      { slide_index := 0, shape_name := "A", placeholder_type := "OBJECT",
        issue_type := "empty_placeholder", intended_content := "Hello",
        actual_content := "", severity := "critical", description := "" }
      (build_intended_content_map
        [{ name := "A", placeholder_type := "OBJECT", left_inches := 0,
           top_inches := 0, text := "Hello", has_text_frame := true },
         { name := "B", placeholder_type := "OBJECT", left_inches := 0,
           top_inches := 0, text := "World", has_text_frame := true }]) =
      ([{ name := "A", hasTextFrame := true, left := 0, top := 0,
          paragraphs := [""] },
        { name := "B", hasTextFrame := true, left := 0, top := 5000000,
          paragraphs := [] }],
       { mismatch := { slide_index := 0, shape_name := "A",
                       placeholder_type := "OBJECT",
                       issue_type := "empty_placeholder",
                       intended_content := "Hello", actual_content := "",
                       severity := "critical", description := "" },
         repair_attempted := true, repair_successful := false,
         repair_method := "error", new_content := "",
         error_message := some "boom" }) :=
  C8_repair_error_containment.1 _ _ _ _ 0 "boom"
    { name := "A", placeholder_type := "OBJECT", left_inches := 0,
      top_inches := 0, text := "Hello", has_text_frame := true }
    { json_shape := { name := "A", placeholder_type := "OBJECT",
                      left_inches := 0, top_inches := 0, text := "Hello",
                      has_text_frame := true },
      ppt_shape := 0, confidence := 1, strategy := .exact_name }
    []
    (by decide) (by decide) (by decide) (by decide)

/-! ## C9: repairs do not share a consumed set -/

/-- C9. Every invocation of the matcher starts from a freshly created
empty consumed set (`_create_slide_context` always builds
`used_shapes = set()`), and the repair pass re-invokes the matcher
once per issue on a single-shape intent list; concretely, on a slide
whose only eligible shape is `"Content Placeholder 5"`, the
single-shape matching calls for two distinct intent shapes both
resolve to document shape 0, both repairs succeed, and the second
sequentially overwrites the first (the final container holds only
`"Beta text"`) — the one-slide no-double-assignment invariant does not
extend across the issues of one repair pass. -/
theorem C9_repair_double_assignment :
    (∀ (slide : List PptShape) (slide_data : SlideData),
      (create_slide_context slide slide_data).used_shapes = []) ∧
    (match_placeholders_for_slide
        [{ name := "Content Placeholder 5", hasTextFrame := true,
           left := 99000000, top := 99000000, paragraphs := [] }]
        { slide_index := none, slide_layout_name := none,
          shapes := [{ name := "A", placeholder_type := "OBJECT",
                       left_inches := 0, top_inches := 0, text := "Alpha text",
                       has_text_frame := true }] }).map (fun m => m.ppt_shape) =
      [0] ∧
    (match_placeholders_for_slide
        [{ name := "Content Placeholder 5", hasTextFrame := true,
           left := 99000000, top := 99000000, paragraphs := [] }]
        { slide_index := none, slide_layout_name := none,
          shapes := [{ name := "B", placeholder_type := "OBJECT",
                       left_inches := 0, top_inches := 0, text := "Beta text",
                       has_text_frame := true }] }).map (fun m => m.ppt_shape) =
      [0] ∧
    (repair_slide_issues (fun _ => none)
        [{ name := "Content Placeholder 5", hasTextFrame := true,
           left := 99000000, top := 99000000, paragraphs := [] }]
        { slide_index := some 0, slide_layout_name := some "Layout",
          shapes := [{ name := "A", placeholder_type := "OBJECT",
                       left_inches := 0, top_inches := 0, text := "Alpha text",
                       has_text_frame := true },
                     { name := "B", placeholder_type := "OBJECT",
                       left_inches := 0, top_inches := 0, text := "Beta text",
                       has_text_frame := true }] }
        [{ slide_index := 0, shape_name := "A", placeholder_type := "OBJECT",
           issue_type := "empty_placeholder", intended_content := "Alpha text",
           actual_content := "", severity := "critical", description := "" },
         { slide_index := 0, shape_name := "B", placeholder_type := "OBJECT",
           issue_type := "empty_placeholder", intended_content := "Beta text",
           actual_content := "", severity := "critical",
           description := "" }]).2.map (fun r => r.repair_successful) =
      [true, true] ∧
    (repair_slide_issues (fun _ => none)
        [{ name := "Content Placeholder 5", hasTextFrame := true,
           left := 99000000, top := 99000000, paragraphs := [] }]
        { slide_index := some 0, slide_layout_name := some "Layout",
          shapes := [{ name := "A", placeholder_type := "OBJECT",
                       left_inches := 0, top_inches := 0, text := "Alpha text",
                       has_text_frame := true },
                     { name := "B", placeholder_type := "OBJECT",
                       left_inches := 0, top_inches := 0, text := "Beta text",
                       has_text_frame := true }] }
        [{ slide_index := 0, shape_name := "A", placeholder_type := "OBJECT",
           issue_type := "empty_placeholder", intended_content := "Alpha text",
           actual_content := "", severity := "critical", description := "" },
         { slide_index := 0, shape_name := "B", placeholder_type := "OBJECT",
           issue_type := "empty_placeholder", intended_content := "Beta text",
           actual_content := "", severity := "critical",
           description := "" }]).1 =
      [{ name := "Content Placeholder 5", hasTextFrame := true,
         left := 99000000, top := 99000000, paragraphs := ["Beta text"] }] :=
  ⟨fun _ _ => rfl, by decide⟩

/-! ## C10: failure results carry no error message -/

/-- C10. `_create_failed_result` ignores its error-message argument
and always returns the all-zero `fail` result (no field carries the
message), and `verify_presentation_content` returns exactly that
result when extraction fails, when loading the intent JSON fails, or
when any other exception escapes the comparison. -/
theorem C10_failed_result_uniform :
    ∀ (msg msg2 : String) (actual intended : Option (List SlideData))
      (e : String) (exc : Option String),
      create_failed_result msg = create_failed_result msg2 ∧
      create_failed_result msg =
        { total_slides := 0, total_shapes_checked := 0, successful_matches := 0,
          mismatches := [], success_rate := 0, overall_status := "fail",
          repair_results := none, post_repair_mismatches := none,
          post_repair_success_rate := none } ∧
      verify_presentation_content none intended exc = create_failed_result msg ∧
      verify_presentation_content actual none exc = create_failed_result msg ∧
      verify_presentation_content actual intended (some e) =
        create_failed_result msg := by
  intro msg msg2 actual intended e exc
  refine ⟨rfl, rfl, rfl, ?_, ?_⟩
  · cases actual <;> rfl
  · cases actual <;> cases intended <;> rfl
